import Mathlib

/-!
Verification of the clinic queue-management service (FastAPI + SQLAlchemy).

Shallow embedding: database rows become Lean structures, the database session
becomes an explicit `DB` record of row lists, and each HTTP/CRUD operation
becomes a pure function `DB → Result × DB`.  SQLAlchemy `.first()` becomes
`List.find?`, row mutation becomes a `map` that rewrites the row with the
matching primary key, inserts append to the row list, and an uncommitted
session that is closed after an HTTP exception discards its mutations
(so failure paths that raise before `commit` return the database unchanged).
Times are natural numbers counted in minutes.
-/

/-- A row of the `patients` table (fields used by the modelled endpoints). -/
structure Patient where
  patientId : Nat
  firstName : String
  lastName : String
  phoneNumber : String
  dateOfBirth : Option Nat
  isActive : Bool
deriving Repr, DecidableEq

/-- A row of the `visits` table. -/
structure Visit where
  visitId : Nat
  patientId : Nat
  departmentId : Option Nat
  doctorId : Option Nat
  visitDate : Nat
  checkInDatetime : Option Nat
  checkInMethod : Option String
  visitStatus : String
  completedDatetime : Option Nat
deriving Repr, DecidableEq

/-- A row of the `queue_tickets` table. -/
structure QueueTicket where
  ticketId : Nat
  visitId : Nat
  queueDate : Nat
  queueStatus : String
  queuePosition : Int
  estimatedWaitTime : Option Int
  calledAt : Option Nat
  startedAt : Option Nat
  completedAt : Option Nat
deriving Repr, DecidableEq

/-- A row of the `otp_verifications` table. -/
structure OTPVerification where
  otpId : Nat
  phoneNumber : String
  otpCode : String
  isVerified : Bool
  isExpired : Bool
  retryCount : Nat
  maxAttempts : Nat
  patientId : Option Nat
  expiresAt : Nat
  verifiedAt : Option Nat
deriving Repr, DecidableEq

/-- A row of the `departments` table (fields used by the estimator). -/
structure Department where
  departmentId : Nat
  averageServiceTime : Int
deriving Repr, DecidableEq

/-- The persistent store: row lists plus autoincrement counters. -/
structure DB where
  patients : List Patient
  visits : List Visit
  tickets : List QueueTicket
  otps : List OTPVerification
  departments : List Department
  nextPatientId : Nat
  nextVisitId : Nat
  nextTicketId : Nat
  nextOtpId : Nat
deriving Repr, DecidableEq

/-- Request body of `POST /otp/verify` (`OTPVerifyRequest`). -/
structure OTPVerifyReq where
  phoneNumber : String
  otpCode : String
  departmentId : Option Nat
  doctorId : Option Nat
  checkInMethod : String
deriving Repr, DecidableEq

/-- Request body of `POST /checkin/qr` (`QRCheckInRequest`). -/
structure QRReq where
  phoneNumber : String
  qrCodeValue : String
  firstName : Option String
  lastName : Option String
  dateOfBirth : Option Nat
deriving Repr, DecidableEq

/-- Response shape shared by the two check-in flows. -/
structure CheckinResult where
  success : Bool
  message : String
  patientId : Option Nat
  visitId : Option Nat
  ticketId : Option Nat
  queuePosition : Option Int
  estimatedWaitTime : Option Int
deriving Repr, DecidableEq

/-- Response shape of `POST /appointments/start`. -/
structure StartResult where
  success : Bool
  message : String
  ticketId : Option Nat
  visitId : Option Nat
  queueStatus : Option String
  startedAt : Option Nat
deriving Repr, DecidableEq

/-- Response shape of `PATCH /appointment/ticket_id/status`. -/
structure PatchResult where
  success : Bool
  httpStatus : Nat
  message : String
  oldStatus : Option String
  newStatus : Option String
deriving Repr, DecidableEq

/-- Response shape of `POST /otp/send`. -/
structure SendResult where
  success : Bool
  httpStatus : Nat
  message : String
  otpCode : Option String
deriving Repr, DecidableEq

/-- Response shape of `POST /appointment/complete`. -/
structure CompleteResult where
  success : Bool
  message : String
deriving Repr, DecidableEq

/-- Response shape of `POST /checkin/sms`. -/
structure SmsResult where
  success : Bool
  message : String
deriving Repr, DecidableEq

/-- The open-visit statuses used by the duplicate check in
`verify_otp_and_checkin` (the ACTIVE, WAITING and IN_PROGRESS statuses). -/
def openStatusB (s : String) : Bool :=
  s == "ACTIVE" || s == "WAITING" || s == "IN_PROGRESS"

/-- The active-ticket statuses used by the position query in
`verify_otp_and_checkin` (the WAITING, CALLED and IN_PROGRESS statuses). -/
def activeStatusB (s : String) : Bool :=
  s == "WAITING" || s == "CALLED" || s == "IN_PROGRESS"

/-- The predicate of the open-visit duplicate query, for a patient and date. -/
def openVisitPred (pid d : Nat) (v : Visit) : Bool :=
  v.patientId == pid && v.visitDate == d && openStatusB v.visitStatus

/-- Number of open visits for a (patient, date) pair. -/
def countOpen (vs : List Visit) (pid d : Nat) : Nat :=
  (vs.filter (openVisitPred pid d)).length

/-- Number of tickets (any status) whose queue date is `d` — the count used by
the QR check-in position computation. -/
def countDate (ts : List QueueTicket) (d : Nat) : Nat :=
  (ts.filter (fun t => t.queueDate == d)).length

/-- Number of active-status tickets for date `d` (the quantity the position
formula of the spec refers to). -/
def countActiveDate (ts : List QueueTicket) (d : Nat) : Nat :=
  (ts.filter (fun t => t.queueDate == d && activeStatusB t.queueStatus)).length

/-- Positions of the active-status tickets of date `d`, the input of the SQL
`max()` aggregate in `verify_otp_and_checkin`. -/
def activePositions (ts : List QueueTicket) (d : Nat) : List Int :=
  (ts.filter (fun t => t.queueDate == d && activeStatusB t.queueStatus)).map
    (fun t => t.queuePosition)

/-- `db.query(func.max(col)).scalar() or 0`: the SQL max of a list of integers,
with Python falsiness turning an empty (`NULL`) or zero maximum into `0`.
Since `0 or 0` is `0` in Python, this is exactly: `0` on the empty list,
otherwise the maximum element. -/
def sqlMaxD0 : List Int → Int
  | [] => 0
  | x :: xs => xs.foldl max x

/-- The first OTP row matched by the `verify_otp_and_checkin` lookup:
phone and code equal, unverified, unexpired by flag, and unexpired by clock. -/
def otpFindValid (db : DB) (phone code : String) (now : Nat) :
    Option OTPVerification :=
  db.otps.find? (fun o =>
    o.phoneNumber == phone && o.otpCode == code &&
    o.isVerified == false && o.isExpired == false && decide (now < o.expiresAt))

/-- Rewrite the OTP row with the given primary key. -/
def updateOtp (db : DB) (oid : Nat) (f : OTPVerification → OTPVerification) : DB :=
  { db with otps := db.otps.map (fun o => if o.otpId == oid then f o else o) }

/-- Rewrite the ticket row with the given primary key. -/
def updateTicket (db : DB) (tid : Nat) (f : QueueTicket → QueueTicket) : DB :=
  { db with tickets := db.tickets.map (fun t => if t.ticketId == tid then f t else t) }

/-- Rewrite the visit row with the given primary key. -/
def updateVisit (db : DB) (vid : Nat) (f : Visit → Visit) : DB :=
  { db with visits := db.visits.map (fun v => if v.visitId == vid then f v else v) }

/-- Department lookup feeding the wait-time default:
`department.average_service_time if department else 30`. -/
def deptServiceTime (db : DB) (did : Option Nat) : Int :=
  match did.bind (fun i => db.departments.find? (fun d => d.departmentId == i)) with
  | some d => d.averageServiceTime
  | none => 30

/-- The pure wait-time estimator of the admission path:
`estimated_wait = (new_position - 1) * average_service_time`. -/
def estimateWait (position avgServiceMinutes : Int) : Int :=
  (position - 1) * avgServiceMinutes

/-- `crud.start_appointment`: transition a ticket from WAITING/CALLED to
IN_PROGRESS, stamping `started_at` and mirroring the visit status. -/
def start_appointment (db : DB) (now : Nat) (ticketId : Nat) :
    StartResult × DB :=
  match db.tickets.find? (fun t => t.ticketId == ticketId) with
  | none => (⟨false, "Queue ticket not found", none, none, none, none⟩, db)
  | some ticket =>
    if !(ticket.queueStatus == "WAITING" || ticket.queueStatus == "CALLED") then
      (⟨false, "Cannot start appointment. Current status: " ++ ticket.queueStatus,
        none, none, none, none⟩, db)
    else
      match db.visits.find? (fun v => v.visitId == ticket.visitId) with
      | none => (⟨false, "Visit not found", none, none, none, none⟩, db)
      | some visit =>
        match db.patients.find? (fun p => p.patientId == visit.patientId) with
        | none => (⟨false, "Patient not found", none, none, none, none⟩, db)
        | some _patient =>
          let db1 := updateTicket db ticket.ticketId (fun t =>
            { t with queueStatus := "IN_PROGRESS", startedAt := some now })
          let db2 := updateVisit db1 visit.visitId (fun v =>
            { v with visitStatus := "IN_PROGRESS" })
          (⟨true, "Appointment started successfully", some ticket.ticketId,
            some visit.visitId, some "IN_PROGRESS", some now⟩, db2)

/-- `crud.verify_otp_and_checkin`: OTP verification followed by the
duplicate-visit check and, when no open visit exists, creation of a new
visit and queue ticket with position `max(active positions) + 1`. -/
def verify_otp_and_checkin (db : DB) (now today : Nat) (req : OTPVerifyReq) :
    CheckinResult × DB :=
  match otpFindValid db req.phoneNumber req.otpCode now with
  | none => (⟨false, "Invalid or expired OTP", none, none, none, none, none⟩, db)
  | some o =>
    if o.maxAttempts ≤ o.retryCount then
      (⟨false, "Maximum OTP verification attempts exceeded",
        none, none, none, none, none⟩,
       updateOtp db o.otpId (fun r => { r with isExpired := true }))
    else
      match o.patientId.bind
          (fun pid => db.patients.find? (fun p => p.patientId == pid)) with
      | none => (⟨false, "Patient not found", none, none, none, none, none⟩, db)
      | some patient =>
        let db1 := updateOtp db o.otpId (fun r =>
          { r with isVerified := true, verifiedAt := some now })
        match db1.visits.find? (openVisitPred patient.patientId today) with
        | some existingVisit =>
          let qt := db1.tickets.find? (fun t => t.visitId == existingVisit.visitId)
          (⟨true, "Already checked in for today", some patient.patientId,
            some existingVisit.visitId, qt.map (fun t => t.ticketId),
            qt.map (fun t => t.queuePosition),
            qt.bind (fun t => t.estimatedWaitTime)⟩, db1)
        | none =>
          let newVisit : Visit :=
            { visitId := db1.nextVisitId, patientId := patient.patientId,
              departmentId := req.departmentId, doctorId := req.doctorId,
              visitDate := today, checkInDatetime := some now,
              checkInMethod := some req.checkInMethod,
              visitStatus := "ACTIVE", completedDatetime := none }
          let newPosition : Int := sqlMaxD0 (activePositions db1.tickets today) + 1
          let avg : Int := deptServiceTime db1 req.departmentId
          let wait : Int := estimateWait newPosition avg
          let newTicket : QueueTicket :=
            { ticketId := db1.nextTicketId, visitId := newVisit.visitId,
              queueDate := today, queueStatus := "WAITING",
              queuePosition := newPosition, estimatedWaitTime := some wait,
              calledAt := none, startedAt := none, completedAt := none }
          (⟨true, "Check-in successful", some patient.patientId,
            some newVisit.visitId, some newTicket.ticketId,
            some newPosition, some wait⟩,
           { db1 with visits := db1.visits ++ [newVisit],
                      tickets := db1.tickets ++ [newTicket],
                      nextVisitId := db1.nextVisitId + 1,
                      nextTicketId := db1.nextTicketId + 1 })

/-- Python falsiness of an optional string: `None` and `""` are falsy. -/
def optStrFalsy : Option String → Bool
  | none => true
  | some s => s.isEmpty

/-- Second half of `qr_checkin`: create the visit and the queue ticket for the
(found or freshly created) patient, with position `count(tickets of today) + 1`
and no estimated wait. -/
def qrProceed (db : DB) (now today pid : Nat) : CheckinResult × DB :=
  let newVisit : Visit :=
    { visitId := db.nextVisitId, patientId := pid, departmentId := none,
      doctorId := none, visitDate := today, checkInDatetime := some now,
      checkInMethod := some "QR_CODE", visitStatus := "ACTIVE",
      completedDatetime := none }
  let newPosition : Int := (countDate db.tickets today : Int) + 1
  let newTicket : QueueTicket :=
    { ticketId := db.nextTicketId, visitId := newVisit.visitId,
      queueDate := today, queueStatus := "WAITING",
      queuePosition := newPosition, estimatedWaitTime := none,
      calledAt := none, startedAt := none, completedAt := none }
  (⟨true, "Check-in successful", some pid, some newVisit.visitId,
    some newTicket.ticketId, some newPosition, none⟩,
   { db with visits := db.visits ++ [newVisit],
             tickets := db.tickets ++ [newTicket],
             nextVisitId := db.nextVisitId + 1,
             nextTicketId := db.nextTicketId + 1 })

/-- `POST /checkin/qr` (`qr_checkin`): register the patient when new, then
unconditionally create a visit and a queue ticket — the endpoint performs no
duplicate-visit check. -/
def qr_checkin (db : DB) (now today : Nat) (req : QRReq) : CheckinResult × DB :=
  match db.patients.find? (fun p =>
      p.phoneNumber == req.phoneNumber && p.isActive == true) with
  | some patient => qrProceed db now today patient.patientId
  | none =>
    if optStrFalsy req.firstName || optStrFalsy req.lastName ||
        req.dateOfBirth.isNone then
      (⟨false,
        "For new patients: first_name, last_name, and date_of_birth are required",
        none, none, none, none, none⟩, db)
    else
      let newPatient : Patient :=
        { patientId := db.nextPatientId, firstName := req.firstName.getD "",
          lastName := req.lastName.getD "", phoneNumber := req.phoneNumber,
          dateOfBirth := req.dateOfBirth, isActive := true }
      let db1 := { db with patients := db.patients ++ [newPatient],
                           nextPatientId := db.nextPatientId + 1 }
      qrProceed db1 now today newPatient.patientId

/-- The status whitelist of `PATCH /appointment/ticket_id/status`. -/
def valid_statuses : List String :=
  ["WAITING", "CALLED", "IN_PROGRESS", "COMPLETED", "CANCELLED"]

/-- `PATCH /appointment/ticket_id/status` (`update_appointment_status`):
set the ticket status to any member of the whitelist, stamping the matching
timestamp; the associated visit is never touched. -/
def update_appointment_status (db : DB) (now : Nat) (ticketId : Nat)
    (newStatus : String) : PatchResult × DB :=
  if !(valid_statuses.contains newStatus) then
    (⟨false, 400, "Invalid status", none, none⟩, db)
  else
    match db.tickets.find? (fun t => t.ticketId == ticketId) with
    | none => (⟨false, 404, "Ticket not found", none, none⟩, db)
    | some ticket =>
      let db1 := updateTicket db ticketId (fun t =>
        { t with queueStatus := newStatus,
                 calledAt := if newStatus == "CALLED" then some now else t.calledAt,
                 startedAt :=
                   if newStatus == "IN_PROGRESS" then some now else t.startedAt,
                 completedAt :=
                   if newStatus == "COMPLETED" || newStatus == "CANCELLED" then
                     some now
                   else t.completedAt })
      (⟨true, 200, "Status updated to " ++ newStatus,
        some ticket.queueStatus, some newStatus⟩, db1)

/-- TTL, in minutes, of a freshly issued OTP in `send_otp`
(`timedelta(minutes=5)`). -/
def otpSendTtlMinutes : Nat := 5

/-- `POST /otp/send` (`send_otp`): reuse an unexpired, unverified record for
the phone (429 once its retry counter reaches `max_attempts`, otherwise
increment the counter and resend the stored code), or create a fresh record
with `retry_count = 0`, `max_attempts = 3` and a 5-minute expiry.  The random
4-digit code is an explicit argument. -/
def send_otp (db : DB) (now : Nat) (phone newCode : String) : SendResult × DB :=
  match db.otps.find? (fun o =>
      o.phoneNumber == phone && o.isExpired == false && o.isVerified == false) with
  | some o =>
    if o.maxAttempts ≤ o.retryCount then
      (⟨false, 429, "Maximum OTP request attempts reached. Please try again later.",
        none⟩, db)
    else
      (⟨true, 200, "OTP resent successfully", some o.otpCode⟩,
       updateOtp db o.otpId (fun r => { r with retryCount := r.retryCount + 1 }))
  | none =>
    let newRecord : OTPVerification :=
      { otpId := db.nextOtpId, phoneNumber := phone, otpCode := newCode,
        isVerified := false, isExpired := false, retryCount := 0,
        maxAttempts := 3, patientId := none,
        expiresAt := now + otpSendTtlMinutes, verifiedAt := none }
    (⟨true, 200, "OTP sent successfully", some newCode⟩,
     { db with otps := db.otps ++ [newRecord], nextOtpId := db.nextOtpId + 1 })

/-- `POST /checkin/sms` (`sms_checkin`): on a valid JOIN message from a known
patient with an un-checked-in scheduled visit today, persist a fresh OTP
record with a 10-minute expiry (model defaults `retry_count = 0`,
`max_attempts = 3`, `is_expired = false` from the column defaults). -/
def sms_checkin (db : DB) (now today : Nat) (phone body newCode : String) :
    SmsResult × DB :=
  if !(body.trim.toUpper == "JOIN") then
    (⟨false, "Invalid message. Please text 'JOIN' to check in."⟩, db)
  else
    match db.patients.find? (fun p =>
        p.phoneNumber == phone && p.isActive == true) with
    | none => (⟨false, "Patient not found. Please register first."⟩, db)
    | some patient =>
      match db.visits.find? (fun v =>
          v.patientId == patient.patientId && v.visitDate == today &&
          v.visitStatus == "scheduled") with
      | none => (⟨false, "No appointment scheduled for today."⟩, db)
      | some visit =>
        if visit.checkInDatetime.isSome then
          (⟨false, "You have already checked in."⟩, db)
        else
          let newRecord : OTPVerification :=
            { otpId := db.nextOtpId, phoneNumber := phone, otpCode := newCode,
              isVerified := false, isExpired := false, retryCount := 0,
              maxAttempts := 3, patientId := some patient.patientId,
              expiresAt := now + 10, verifiedAt := none }
          (⟨true, "OTP sent to your phone. Please reply with the code."⟩,
           { db with otps := db.otps ++ [newRecord],
                     nextOtpId := db.nextOtpId + 1 })

/-- `POST /appointment/complete` (`complete_appointment`): mark ticket and
visit COMPLETED.  When the visit is missing the endpoint raises after mutating
the session, and the uncommitted mutation is discarded on close, so the
database is returned unchanged. -/
def complete_appointment (db : DB) (now : Nat) (ticketId : Nat) :
    CompleteResult × DB :=
  match db.tickets.find? (fun t => t.ticketId == ticketId) with
  | none => (⟨false, "Ticket not found"⟩, db)
  | some ticket =>
    match db.visits.find? (fun v => v.visitId == ticket.visitId) with
    | none => (⟨false, "Visit not found"⟩, db)
    | some visit =>
      let db1 := updateTicket db ticketId (fun t =>
        { t with queueStatus := "COMPLETED", completedAt := some now })
      let db2 := updateVisit db1 visit.visitId (fun v =>
        { v with visitStatus := "COMPLETED", completedDatetime := some now })
      (⟨true, "Appointment completed successfully"⟩, db2)

/-- One invocation of a mutating endpoint of the service, with its arguments
(the nondeterministic inputs — clock, calendar date, random codes — made
explicit). -/
inductive Op where
  | verifyOp (now today : Nat) (req : OTPVerifyReq)
  | qrOp (now today : Nat) (req : QRReq)
  | startOp (now : Nat) (ticketId : Nat)
  | completeOp (now : Nat) (ticketId : Nat)
  | patchOp (now : Nat) (ticketId : Nat) (newStatus : String)
  | sendOp (now : Nat) (phone newCode : String)
  | smsOp (now today : Nat) (phone body newCode : String)
deriving Repr, DecidableEq

/-- State effect of one endpoint invocation. -/
def applyOp (op : Op) (db : DB) : DB :=
  match op with
  | .verifyOp now today req => (verify_otp_and_checkin db now today req).2
  | .qrOp now today req => (qr_checkin db now today req).2
  | .startOp now tid => (start_appointment db now tid).2
  | .completeOp now tid => (complete_appointment db now tid).2
  | .patchOp now tid s => (update_appointment_status db now tid s).2
  | .sendOp now phone code => (send_otp db now phone code).2
  | .smsOp now today phone body code => (sms_checkin db now today phone body code).2

/-- Run a sequence of endpoint invocations. -/
def runOps (ops : List Op) (db : DB) : DB :=
  ops.foldl (fun d op => applyOp op d) db

/-- Whether an operation is the generic PATCH status update. -/
def Op.isPatchStatus : Op → Bool
  | .patchOp _ _ _ => true
  | _ => false

/-- Whether an operation is the OTP issue/resend endpoint. -/
def Op.isSendOtp : Op → Bool
  | .sendOp _ _ _ => true
  | _ => false

/-- Pairwise checker for the queue-position uniqueness property: no two
active-status tickets of the same queue date share a position. -/
def noPosClash (t : QueueTicket) (ts : List QueueTicket) : Bool :=
  ts.all (fun u =>
    !(t.queueDate == u.queueDate && activeStatusB t.queueStatus &&
      activeStatusB u.queueStatus && t.queuePosition == u.queuePosition))

/-- Boolean form of the uniqueness invariant over a ticket list. -/
def uniqueActivePositions : List QueueTicket → Bool
  | [] => true
  | t :: ts => noPosClash t ts && uniqueActivePositions ts

/-- At most one open visit per (patient, date): the core admission invariant. -/
def atMostOneOpen (db : DB) : Prop :=
  ∀ pid d : Nat, countOpen db.visits pid d ≤ 1

/-- An empty store. -/
def emptyDB : DB := ⟨[], [], [], [], [], 1, 1, 1, 1⟩

/-- Test patient with phone number p1. -/
def patientA : Patient := ⟨1, "Ada", "Smith", "p1", some 0, true⟩

/-- An open (ACTIVE) visit of `patientA` on day 0. -/
def visitOpenA : Visit := ⟨7, 1, none, none, 0, some 0, some "OTP", "ACTIVE", none⟩

/-- The WAITING queue ticket of `visitOpenA`. -/
def ticketOfVisitA : QueueTicket := ⟨9, 7, 0, "WAITING", 1, some 0, none, none, none⟩

/-- A fresh, matchable OTP record for `patientA` (code 111111, no retries). -/
def otpFresh : OTPVerification := ⟨1, "p1", "111111", false, false, 0, 3, some 1, 100, none⟩

/-- An OTP record for `patientA` whose retry counter has reached the ceiling. -/
def otpSpent : OTPVerification := ⟨1, "p1", "123456", false, false, 3, 3, some 1, 100, none⟩

/-- An already-verified OTP record. -/
def otpDone : OTPVerification := ⟨4, "p1", "777777", true, false, 0, 3, some 1, 100, some 2⟩

/-- Store holding `patientA` with an open visit and its ticket — input of the
QR duplicate-admission counterexample and of the OTP idempotency witness. -/
def dbDup : DB := ⟨[patientA], [visitOpenA], [ticketOfVisitA], [otpFresh], [], 2, 10, 10, 2⟩

/-- QR check-in request for the phone of `patientA`. -/
def reqQRp1 : QRReq := ⟨"p1", "qr-value", none, none, none⟩

/-- OTP-verify request matching `otpFresh`. -/
def reqVp1 : OTPVerifyReq := ⟨"p1", "111111", none, none, "OTP"⟩

/-- Store with a single WAITING ticket at position 5 on day 0 and a fresh OTP
for `patientA` — input of the position-formula counterexample. -/
def dbPos5 : DB :=
  ⟨[patientA], [], [⟨7, 9, 0, "WAITING", 5, none, none, none, none⟩],
   [otpFresh], [], 2, 10, 11, 2⟩

/-- Department 5 with a 20-minute average service time. -/
def deptTwenty : Department := ⟨5, 20⟩

/-- Store for Scenario C of the spec: two active tickets at positions 1 and 2
on day 0, department 5 with average service time 20, fresh OTP for `patientA`. -/
def dbScenC : DB :=
  ⟨[patientA], [],
   [⟨1, 1, 0, "WAITING", 1, some 0, none, none, none⟩,
    ⟨2, 2, 0, "WAITING", 2, some 20, none, none, none⟩],
   [otpFresh], [deptTwenty], 2, 3, 3, 2⟩

/-- OTP-verify request matching `otpFresh` and naming department 5. -/
def reqVdept : OTPVerifyReq := ⟨"p1", "111111", some 5, none, "OTP"⟩

/-- Store with three patients and three fresh OTP records and no tickets —
initial state of the reachability traces. -/
def dbTrace : DB :=
  ⟨[⟨1, "A", "A", "a", none, true⟩, ⟨2, "B", "B", "b", none, true⟩,
    ⟨3, "C", "C", "c", none, true⟩],
   [], [],
   [⟨1, "a", "1", false, false, 0, 3, some 1, 100, none⟩,
    ⟨2, "b", "2", false, false, 0, 3, some 2, 100, none⟩,
    ⟨3, "c", "3", false, false, 0, 3, some 3, 100, none⟩],
   [], 4, 1, 1, 4⟩

/-- Trace breaking position uniqueness: admit two patients, complete ticket 2,
admit a third (who is handed the reusable position 2), then PATCH ticket 2
back to WAITING. -/
def opsPatchTrace : List Op :=
  [.verifyOp 0 0 ⟨"a", "1", none, none, "OTP"⟩,
   .verifyOp 0 0 ⟨"b", "2", none, none, "OTP"⟩,
   .completeOp 0 2,
   .verifyOp 0 0 ⟨"c", "3", none, none, "OTP"⟩,
   .patchOp 0 2 "WAITING"]

/-- The same trace without the final PATCH. -/
def opsCoreTrace : List Op :=
  [.verifyOp 0 0 ⟨"a", "1", none, none, "OTP"⟩,
   .verifyOp 0 0 ⟨"b", "2", none, none, "OTP"⟩,
   .completeOp 0 2,
   .verifyOp 0 0 ⟨"c", "3", none, none, "OTP"⟩]

/-- Store with an attempt-exhausted OTP record for `patientA`. -/
def dbSpent : DB := ⟨[patientA], [], [], [otpSpent], [], 2, 1, 1, 2⟩

/-- Verify request carrying the correct code of `otpSpent`. -/
def reqGood : OTPVerifyReq := ⟨"p1", "123456", none, none, "OTP"⟩

/-- Verify request carrying a wrong code for the phone of `otpSpent`. -/
def reqBad : OTPVerifyReq := ⟨"p1", "000000", none, none, "OTP"⟩

/-- Store holding one already-verified OTP record. -/
def dbVerified : DB := ⟨[patientA], [], [], [otpDone], [], 2, 1, 1, 5⟩

/-- A COMPLETED ticket for `visitOpenA`. -/
def ticketCompleted : QueueTicket := ⟨3, 7, 0, "COMPLETED", 1, none, none, none, some 5⟩

/-- Store whose only ticket is COMPLETED — input of Scenario D and of the
PATCH terminal-exit witness. -/
def dbCompleted : DB := ⟨[patientA], [visitOpenA], [ticketCompleted], [], [], 2, 10, 10, 2⟩

/-- Store with an OTP record for p1 that has one retry left before the 429. -/
def dbSendOne : DB :=
  ⟨[], [], [], [⟨1, "p1", "4321", false, false, 1, 3, none, 9, none⟩], [], 1, 1, 1, 2⟩

/-- The uniqueness relation of the spec: two tickets of the same queue date
that are both in an active status carry distinct positions. -/
def PosUniq (t u : QueueTicket) : Prop :=
  t.queueDate = u.queueDate → activeStatusB t.queueStatus = true →
    activeStatusB u.queueStatus = true → t.queuePosition ≠ u.queuePosition

/-- Inductive invariant on the ticket table: primary keys are distinct and
below the autoincrement counter, positions are at least 1 and bounded by the
per-date ticket count, and active-status positions are unique per date. -/
structure TicketListInv (ts : List QueueTicket) (nextId : Nat) : Prop where
  nodupIds : (ts.map (fun t => t.ticketId)).Nodup
  idLt : ∀ t ∈ ts, t.ticketId < nextId
  posPos : ∀ t ∈ ts, 1 ≤ t.queuePosition
  posLe : ∀ t ∈ ts, t.queuePosition ≤ (countDate ts t.queueDate : Int)
  uniq : ts.Pairwise PosUniq

/-- The ticket-table invariant of a store. -/
def TicketInv (db : DB) : Prop :=
  TicketListInv db.tickets db.nextTicketId

theorem le_foldl_max (l : List Int) (a : Int) : a ≤ l.foldl max a := by
  induction l generalizing a with
  | nil => exact le_refl a
  | cons x xs ih => exact le_trans (le_max_left a x) (ih (max a x))

theorem mem_le_foldl_max {x : Int} :
    ∀ (l : List Int) (a : Int), x ∈ l → x ≤ l.foldl max a
  | [], _, hx => absurd hx (List.not_mem_nil x)
  | y :: ys, a, hx => by
    rcases List.mem_cons.mp hx with h | h
    · subst h
      exact le_trans (le_max_right a x) (le_foldl_max ys (max a x))
    · exact mem_le_foldl_max ys (max a y) h

theorem foldl_max_le {l : List Int} {B : Int} (a : Int) (ha : a ≤ B)
    (h : ∀ x ∈ l, x ≤ B) : l.foldl max a ≤ B := by
  induction l generalizing a with
  | nil => exact ha
  | cons y ys ih =>
    exact ih (max a y) (max_le ha (h y (List.mem_cons_self y ys)))
      (fun x hx => h x (List.mem_cons_of_mem y hx))

theorem mem_le_sqlMaxD0 {l : List Int} {x : Int} (hx : x ∈ l) :
    x ≤ sqlMaxD0 l := by
  cases l with
  | nil => cases hx
  | cons y ys =>
    rcases List.mem_cons.mp hx with h | h
    · subst h; exact le_foldl_max ys x
    · exact mem_le_foldl_max ys y h

theorem sqlMaxD0_le {l : List Int} {B : Int} (hB : 0 ≤ B)
    (h : ∀ x ∈ l, x ≤ B) : sqlMaxD0 l ≤ B := by
  cases l with
  | nil => exact hB
  | cons y ys =>
    exact foldl_max_le y (h y (List.mem_cons_self y ys))
      (fun x hx => h x (List.mem_cons_of_mem y hx))

theorem sqlMaxD0_nonneg {l : List Int} (h : ∀ x ∈ l, (1:Int) ≤ x) :
    0 ≤ sqlMaxD0 l := by
  cases l with
  | nil => exact le_refl 0
  | cons y ys =>
    exact le_trans (le_trans (by norm_num) (h y (List.mem_cons_self y ys)))
      (le_foldl_max ys y)

theorem countDate_append (ts : List QueueTicket) (nt : QueueTicket) (d : Nat) :
    countDate (ts ++ [nt]) d =
      countDate ts d + (if nt.queueDate == d then 1 else 0) := by
  unfold countDate
  rw [List.filter_append, List.length_append]
  congr 1
  by_cases h : nt.queueDate == d
  · simp [List.filter, h]
  · simp [List.filter, h]

theorem countDate_mono (ts : List QueueTicket) (nt : QueueTicket) (d : Nat) :
    countDate ts d ≤ countDate (ts ++ [nt]) d := by
  rw [countDate_append]
  exact Nat.le_add_right _ _

theorem countDate_map (ts : List QueueTicket) (f : QueueTicket → QueueTicket)
    (hf : ∀ t ∈ ts, (f t).queueDate = t.queueDate) (d : Nat) :
    countDate (ts.map f) d = countDate ts d := by
  unfold countDate
  rw [List.filter_map, List.length_map]
  congr 1
  apply List.filter_congr
  intro t ht
  simp only [Function.comp_apply, hf t ht]

theorem mem_activePositions {ts : List QueueTicket} {t : QueueTicket} {d : Nat}
    (ht : t ∈ ts) (hd : t.queueDate = d) (ha : activeStatusB t.queueStatus = true) :
    t.queuePosition ∈ activePositions ts d := by
  unfold activePositions
  exact List.mem_map_of_mem _ (List.mem_filter.mpr ⟨ht, by simp [hd, ha]⟩)

theorem activePositions_sub {ts : List QueueTicket} {x : Int} {d : Nat}
    (hx : x ∈ activePositions ts d) :
    ∃ t ∈ ts, t.queueDate = d ∧ activeStatusB t.queueStatus = true ∧
      t.queuePosition = x := by
  unfold activePositions at hx
  rcases List.mem_map.mp hx with ⟨t, ht, rfl⟩
  rcases List.mem_filter.mp ht with ⟨hmem, hcond⟩
  simp only [Bool.and_eq_true, beq_iff_eq] at hcond
  exact ⟨t, hmem, hcond.1, hcond.2, rfl⟩

theorem ticketListInv_append {ts : List QueueTicket} {nextId : Nat}
    (inv : TicketListInv ts nextId) (nt : QueueTicket)
    (hid : nt.ticketId = nextId)
    (hpos1 : 1 ≤ nt.queuePosition)
    (hpos2 : nt.queuePosition ≤ (countDate ts nt.queueDate : Int) + 1)
    (hgt : ∀ t ∈ ts, t.queueDate = nt.queueDate →
      activeStatusB t.queueStatus = true → t.queuePosition < nt.queuePosition) :
    TicketListInv (ts ++ [nt]) (nextId + 1) := by
  constructor
  · rw [List.map_append, List.nodup_append]
    refine ⟨inv.nodupIds, List.nodup_singleton _, ?_⟩
    intro x hx hx2
    simp only [List.map_cons, List.map_nil, List.mem_singleton] at hx2
    rcases List.mem_map.mp hx with ⟨t, ht, rfl⟩
    have h1 := inv.idLt t ht
    rw [hx2, hid] at h1
    exact absurd h1 (lt_irrefl nextId)
  · intro t ht
    rcases List.mem_append.mp ht with h | h
    · exact Nat.lt_succ_of_lt (inv.idLt t h)
    · rw [List.mem_singleton.mp h, hid]; exact Nat.lt_succ_self _
  · intro t ht
    rcases List.mem_append.mp ht with h | h
    · exact inv.posPos t h
    · rw [List.mem_singleton.mp h]; exact hpos1
  · intro t ht
    rcases List.mem_append.mp ht with h | h
    · calc t.queuePosition ≤ (countDate ts t.queueDate : Int) := inv.posLe t h
        _ ≤ (countDate (ts ++ [nt]) t.queueDate : Int) := by
            exact_mod_cast countDate_mono ts nt t.queueDate
    · rw [List.mem_singleton.mp h]
      calc nt.queuePosition ≤ (countDate ts nt.queueDate : Int) + 1 := hpos2
        _ = (countDate (ts ++ [nt]) nt.queueDate : Int) := by
            rw [countDate_append]
            simp
  · rw [List.pairwise_append]
    refine ⟨inv.uniq, List.pairwise_singleton _ _, ?_⟩
    intro t ht u hu hdate hta hua
    rw [List.mem_singleton.mp hu] at hdate ⊢
    rw [List.mem_singleton.mp hu] at hua
    exact ne_of_lt (hgt t ht hdate hta)

theorem ticketListInv_map {ts : List QueueTicket} {nextId : Nat}
    (inv : TicketListInv ts nextId) (f : QueueTicket → QueueTicket)
    (hid : ∀ t ∈ ts, (f t).ticketId = t.ticketId)
    (hdate : ∀ t ∈ ts, (f t).queueDate = t.queueDate)
    (hpos : ∀ t ∈ ts, (f t).queuePosition = t.queuePosition)
    (hact : ∀ t ∈ ts, activeStatusB (f t).queueStatus = true →
      activeStatusB t.queueStatus = true) :
    TicketListInv (ts.map f) nextId := by
  constructor
  · rw [List.map_map]
    have : ts.map ((fun t => t.ticketId) ∘ f) = ts.map (fun t => t.ticketId) :=
      List.map_congr_left (fun t ht => hid t ht)
    rw [this]; exact inv.nodupIds
  · intro t ht
    rcases List.mem_map.mp ht with ⟨u, hu, rfl⟩
    rw [hid u hu]; exact inv.idLt u hu
  · intro t ht
    rcases List.mem_map.mp ht with ⟨u, hu, rfl⟩
    rw [hpos u hu]; exact inv.posPos u hu
  · intro t ht
    rcases List.mem_map.mp ht with ⟨u, hu, rfl⟩
    rw [hpos u hu, hdate u hu, countDate_map ts f hdate]
    exact inv.posLe u hu
  · rw [List.pairwise_map]
    refine inv.uniq.imp_of_mem ?_
    intro t u ht hu h hd hta hua
    rw [hpos t ht, hpos u hu]
    exact h (by rw [hdate t ht, hdate u hu] at hd; exact hd)
      (hact t ht hta) (hact u hu hua)

theorem verify_checkin_invalid (db : DB) (now today : Nat) (req : OTPVerifyReq)
    (h1 : otpFindValid db req.phoneNumber req.otpCode now = none) :
    verify_otp_and_checkin db now today req =
      (⟨false, "Invalid or expired OTP", none, none, none, none, none⟩, db) := by
  simp only [verify_otp_and_checkin, h1]

theorem verify_checkin_exhausted (db : DB) (now today : Nat) (req : OTPVerifyReq)
    (o : OTPVerification)
    (h1 : otpFindValid db req.phoneNumber req.otpCode now = some o)
    (h2 : o.maxAttempts ≤ o.retryCount) :
    verify_otp_and_checkin db now today req =
      (⟨false, "Maximum OTP verification attempts exceeded",
        none, none, none, none, none⟩,
       updateOtp db o.otpId (fun r => { r with isExpired := true })) := by
  simp only [verify_otp_and_checkin, h1, if_pos h2]

theorem verify_checkin_noPatient (db : DB) (now today : Nat) (req : OTPVerifyReq)
    (o : OTPVerification)
    (h1 : otpFindValid db req.phoneNumber req.otpCode now = some o)
    (h2 : o.retryCount < o.maxAttempts)
    (h3 : o.patientId.bind
      (fun pid => db.patients.find? (fun q => q.patientId == pid)) = none) :
    verify_otp_and_checkin db now today req =
      (⟨false, "Patient not found", none, none, none, none, none⟩, db) := by
  simp only [verify_otp_and_checkin, h1, if_neg (Nat.not_le.mpr h2), h3]

theorem verify_checkin_existingVisit (db : DB) (now today : Nat)
    (req : OTPVerifyReq) (o : OTPVerification) (p : Patient) (ev : Visit)
    (h1 : otpFindValid db req.phoneNumber req.otpCode now = some o)
    (h2 : o.retryCount < o.maxAttempts)
    (h3 : o.patientId.bind
      (fun pid => db.patients.find? (fun q => q.patientId == pid)) = some p)
    (h4 : db.visits.find? (openVisitPred p.patientId today) = some ev) :
    verify_otp_and_checkin db now today req =
      (⟨true, "Already checked in for today", some p.patientId, some ev.visitId,
        (db.tickets.find? (fun t => t.visitId == ev.visitId)).map
          (fun t => t.ticketId),
        (db.tickets.find? (fun t => t.visitId == ev.visitId)).map
          (fun t => t.queuePosition),
        (db.tickets.find? (fun t => t.visitId == ev.visitId)).bind
          (fun t => t.estimatedWaitTime)⟩,
       updateOtp db o.otpId
         (fun r => { r with isVerified := true, verifiedAt := some now })) := by
  simp only [verify_otp_and_checkin, h1, if_neg (Nat.not_le.mpr h2), h3,
    updateOtp, h4]

theorem verify_checkin_newVisit (db : DB) (now today : Nat) (req : OTPVerifyReq)
    (o : OTPVerification) (p : Patient)
    (h1 : otpFindValid db req.phoneNumber req.otpCode now = some o)
    (h2 : o.retryCount < o.maxAttempts)
    (h3 : o.patientId.bind
      (fun pid => db.patients.find? (fun q => q.patientId == pid)) = some p)
    (h4 : db.visits.find? (openVisitPred p.patientId today) = none) :
    verify_otp_and_checkin db now today req =
      (⟨true, "Check-in successful", some p.patientId, some db.nextVisitId,
        some db.nextTicketId,
        some (sqlMaxD0 (activePositions db.tickets today) + 1),
        some (estimateWait (sqlMaxD0 (activePositions db.tickets today) + 1)
          (deptServiceTime db req.departmentId))⟩,
       { db with
         otps := db.otps.map (fun r => if r.otpId == o.otpId then
           { r with isVerified := true, verifiedAt := some now } else r),
         visits := db.visits ++
           [⟨db.nextVisitId, p.patientId, req.departmentId, req.doctorId, today,
             some now, some req.checkInMethod, "ACTIVE", none⟩],
         tickets := db.tickets ++
           [⟨db.nextTicketId, db.nextVisitId, today, "WAITING",
             sqlMaxD0 (activePositions db.tickets today) + 1,
             some (estimateWait (sqlMaxD0 (activePositions db.tickets today) + 1)
               (deptServiceTime db req.departmentId)), none, none, none⟩],
         nextVisitId := db.nextVisitId + 1,
         nextTicketId := db.nextTicketId + 1 }) := by
  simp only [verify_otp_and_checkin, h1, if_neg (Nat.not_le.mpr h2), h3,
    updateOtp, h4, deptServiceTime, estimateWait]

theorem start_badStatus (db : DB) (now tid : Nat) (t : QueueTicket)
    (hf : db.tickets.find? (fun u => u.ticketId == tid) = some t)
    (hs : (t.queueStatus == "WAITING" || t.queueStatus == "CALLED") = false) :
    start_appointment db now tid =
      (⟨false, "Cannot start appointment. Current status: " ++ t.queueStatus,
        none, none, none, none⟩, db) := by
  simp only [start_appointment, hf, hs, Bool.not_false, if_pos]

theorem start_ok (db : DB) (now tid : Nat) (t : QueueTicket) (v : Visit)
    (p : Patient)
    (hf : db.tickets.find? (fun u => u.ticketId == tid) = some t)
    (hs : (t.queueStatus == "WAITING" || t.queueStatus == "CALLED") = true)
    (hv : db.visits.find? (fun u => u.visitId == t.visitId) = some v)
    (hp : db.patients.find? (fun q => q.patientId == v.patientId) = some p) :
    start_appointment db now tid =
      (⟨true, "Appointment started successfully", some t.ticketId,
        some v.visitId, some "IN_PROGRESS", some now⟩,
       updateVisit (updateTicket db t.ticketId (fun u =>
           { u with queueStatus := "IN_PROGRESS", startedAt := some now }))
         v.visitId (fun u => { u with visitStatus := "IN_PROGRESS" })) := by
  simp only [start_appointment, hf, hs, Bool.not_true, if_neg,
    Bool.false_eq_true, not_false_eq_true, updateTicket, updateVisit, hv, hp]

theorem qr_checkin_found (db : DB) (now today : Nat) (req : QRReq) (p : Patient)
    (hf : db.patients.find? (fun q =>
      q.phoneNumber == req.phoneNumber && q.isActive == true) = some p) :
    qr_checkin db now today req = qrProceed db now today p.patientId := by
  simp only [qr_checkin, hf]

theorem qr_checkin_newPatient (db : DB) (now today : Nat) (req : QRReq)
    (hf : db.patients.find? (fun q =>
      q.phoneNumber == req.phoneNumber && q.isActive == true) = none)
    (hreq : (optStrFalsy req.firstName || optStrFalsy req.lastName ||
      req.dateOfBirth.isNone) = false) :
    qr_checkin db now today req =
      qrProceed { db with
        patients := db.patients ++
          [⟨db.nextPatientId, req.firstName.getD "", req.lastName.getD "",
            req.phoneNumber, req.dateOfBirth, true⟩],
        nextPatientId := db.nextPatientId + 1 } now today db.nextPatientId := by
  simp only [qr_checkin, hf, hreq, Bool.false_eq_true, if_neg, not_false_eq_true]

theorem patch_ok (db : DB) (now tid : Nat) (s : String) (t : QueueTicket)
    (hvalid : valid_statuses.contains s = true)
    (hf : db.tickets.find? (fun u => u.ticketId == tid) = some t) :
    update_appointment_status db now tid s =
      (⟨true, 200, "Status updated to " ++ s, some t.queueStatus, some s⟩,
       updateTicket db tid (fun u =>
         { u with queueStatus := s,
                  calledAt := if s == "CALLED" then some now else u.calledAt,
                  startedAt := if s == "IN_PROGRESS" then some now else u.startedAt,
                  completedAt := if s == "COMPLETED" || s == "CANCELLED" then
                    some now else u.completedAt })) := by
  simp only [update_appointment_status, hvalid, Bool.not_true, if_neg,
    Bool.false_eq_true, not_false_eq_true, hf]

theorem complete_ok (db : DB) (now tid : Nat) (t : QueueTicket) (v : Visit)
    (hf : db.tickets.find? (fun u => u.ticketId == tid) = some t)
    (hv : db.visits.find? (fun u => u.visitId == t.visitId) = some v) :
    complete_appointment db now tid =
      (⟨true, "Appointment completed successfully"⟩,
       updateVisit (updateTicket db tid (fun u =>
           { u with queueStatus := "COMPLETED", completedAt := some now }))
         v.visitId (fun u =>
           { u with visitStatus := "COMPLETED", completedDatetime := some now })) := by
  simp only [complete_appointment, hf, hv, updateTicket, updateVisit]

theorem start_notFound (db : DB) (now tid : Nat)
    (hf : db.tickets.find? (fun u => u.ticketId == tid) = none) :
    start_appointment db now tid =
      (⟨false, "Queue ticket not found", none, none, none, none⟩, db) := by
  simp only [start_appointment, hf]

theorem start_noVisit (db : DB) (now tid : Nat) (t : QueueTicket)
    (hf : db.tickets.find? (fun u => u.ticketId == tid) = some t)
    (hs : (t.queueStatus == "WAITING" || t.queueStatus == "CALLED") = true)
    (hv : db.visits.find? (fun u => u.visitId == t.visitId) = none) :
    start_appointment db now tid =
      (⟨false, "Visit not found", none, none, none, none⟩, db) := by
  simp only [start_appointment, hf, hs, Bool.not_true, if_neg,
    Bool.false_eq_true, not_false_eq_true, hv]

theorem start_noPatient (db : DB) (now tid : Nat) (t : QueueTicket) (v : Visit)
    (hf : db.tickets.find? (fun u => u.ticketId == tid) = some t)
    (hs : (t.queueStatus == "WAITING" || t.queueStatus == "CALLED") = true)
    (hv : db.visits.find? (fun u => u.visitId == t.visitId) = some v)
    (hp : db.patients.find? (fun q => q.patientId == v.patientId) = none) :
    start_appointment db now tid =
      (⟨false, "Patient not found", none, none, none, none⟩, db) := by
  simp only [start_appointment, hf, hs, Bool.not_true, if_neg,
    Bool.false_eq_true, not_false_eq_true, hv, hp]

theorem complete_notFound (db : DB) (now tid : Nat)
    (hf : db.tickets.find? (fun u => u.ticketId == tid) = none) :
    complete_appointment db now tid = (⟨false, "Ticket not found"⟩, db) := by
  simp only [complete_appointment, hf]

theorem complete_noVisit (db : DB) (now tid : Nat) (t : QueueTicket)
    (hf : db.tickets.find? (fun u => u.ticketId == tid) = some t)
    (hv : db.visits.find? (fun u => u.visitId == t.visitId) = none) :
    complete_appointment db now tid = (⟨false, "Visit not found"⟩, db) := by
  simp only [complete_appointment, hf, hv]

theorem patch_invalid (db : DB) (now tid : Nat) (s : String)
    (hvalid : valid_statuses.contains s = false) :
    update_appointment_status db now tid s =
      (⟨false, 400, "Invalid status", none, none⟩, db) := by
  simp only [update_appointment_status, hvalid, Bool.not_false, if_pos]

theorem patch_notFound (db : DB) (now tid : Nat) (s : String)
    (hvalid : valid_statuses.contains s = true)
    (hf : db.tickets.find? (fun u => u.ticketId == tid) = none) :
    update_appointment_status db now tid s =
      (⟨false, 404, "Ticket not found", none, none⟩, db) := by
  simp only [update_appointment_status, hvalid, Bool.not_true, if_neg,
    Bool.false_eq_true, not_false_eq_true, hf]

theorem qr_checkin_badRequest (db : DB) (now today : Nat) (req : QRReq)
    (hf : db.patients.find? (fun q =>
      q.phoneNumber == req.phoneNumber && q.isActive == true) = none)
    (hreq : (optStrFalsy req.firstName || optStrFalsy req.lastName ||
      req.dateOfBirth.isNone) = true) :
    qr_checkin db now today req =
      (⟨false,
        "For new patients: first_name, last_name, and date_of_birth are required",
        none, none, none, none, none⟩, db) := by
  simp only [qr_checkin, hf, hreq, if_pos]

theorem qrProceed_snd (db : DB) (now today pid : Nat) :
    (qrProceed db now today pid).2 =
      { db with
        visits := db.visits ++
          [⟨db.nextVisitId, pid, none, none, today, some now, some "QR_CODE",
            "ACTIVE", none⟩],
        tickets := db.tickets ++
          [⟨db.nextTicketId, db.nextVisitId, today, "WAITING",
            (countDate db.tickets today : Int) + 1, none, none, none, none⟩],
        nextVisitId := db.nextVisitId + 1,
        nextTicketId := db.nextTicketId + 1 } := rfl

theorem qrProceed_ticketInv (db : DB) (now today pid : Nat)
    (inv : TicketInv db) : TicketInv (qrProceed db now today pid).2 := by
  unfold TicketInv
  rw [qrProceed_snd]
  dsimp only
  refine ticketListInv_append inv _ rfl ?_ ?_ ?_
  · show (1:Int) ≤ (countDate db.tickets today : Int) + 1
    have h0 : (0:Int) ≤ (countDate db.tickets today : Int) := Int.ofNat_nonneg _
    omega
  · exact le_refl _
  · intro t ht hd _
    show t.queuePosition < (countDate db.tickets today : Int) + 1
    have hle := inv.posLe t ht
    have hd2 : t.queueDate = today := hd
    rw [hd2] at hle
    omega

theorem verify_ticketInv (db : DB) (now today : Nat) (req : OTPVerifyReq)
    (inv : TicketInv db) :
    TicketInv (verify_otp_and_checkin db now today req).2 := by
  cases h1 : otpFindValid db req.phoneNumber req.otpCode now with
  | none => rw [verify_checkin_invalid db now today req h1]; exact inv
  | some o =>
    rcases Nat.lt_or_ge o.retryCount o.maxAttempts with h2 | h2
    · cases h3 : o.patientId.bind
          (fun pid => db.patients.find? (fun q => q.patientId == pid)) with
      | none => rw [verify_checkin_noPatient db now today req o h1 h2 h3]; exact inv
      | some p =>
        cases h4 : db.visits.find? (openVisitPred p.patientId today) with
        | some ev =>
          rw [verify_checkin_existingVisit db now today req o p ev h1 h2 h3 h4]
          exact inv
        | none =>
          rw [verify_checkin_newVisit db now today req o p h1 h2 h3 h4]
          unfold TicketInv
          dsimp only
          refine ticketListInv_append inv _ rfl ?_ ?_ ?_
          · show (1:Int) ≤ sqlMaxD0 (activePositions db.tickets today) + 1
            have h0 : 0 ≤ sqlMaxD0 (activePositions db.tickets today) := by
              refine sqlMaxD0_nonneg ?_
              intro x hx
              rcases activePositions_sub hx with ⟨t, ht, _, _, hpx⟩
              have := inv.posPos t ht
              omega
            omega
          · show sqlMaxD0 (activePositions db.tickets today) + 1 ≤
              (countDate db.tickets today : Int) + 1
            have hle : sqlMaxD0 (activePositions db.tickets today) ≤
                (countDate db.tickets today : Int) := by
              refine sqlMaxD0_le (Int.ofNat_nonneg _) ?_
              intro x hx
              rcases activePositions_sub hx with ⟨t, ht, hd, _, hpx⟩
              have := inv.posLe t ht
              rw [hd] at this
              omega
            omega
          · intro t ht hd ha
            show t.queuePosition < sqlMaxD0 (activePositions db.tickets today) + 1
            have hd2 : t.queueDate = today := hd
            have hmem := mem_activePositions ht hd2 ha
            have := mem_le_sqlMaxD0 hmem
            omega
    · rw [verify_checkin_exhausted db now today req o h1 h2]
      exact inv

theorem start_ticketInv (db : DB) (now tid : Nat) (inv : TicketInv db) :
    TicketInv (start_appointment db now tid).2 := by
  cases hf : db.tickets.find? (fun u => u.ticketId == tid) with
  | none => rw [start_notFound db now tid hf]; exact inv
  | some t =>
    cases hs : (t.queueStatus == "WAITING" || t.queueStatus == "CALLED") with
    | false => rw [start_badStatus db now tid t hf hs]; exact inv
    | true =>
      cases hv : db.visits.find? (fun u => u.visitId == t.visitId) with
      | none => rw [start_noVisit db now tid t hf hs hv]; exact inv
      | some v =>
        cases hp : db.patients.find? (fun q => q.patientId == v.patientId) with
        | none => rw [start_noPatient db now tid t v hf hs hv hp]; exact inv
        | some p =>
          rw [start_ok db now tid t v p hf hs hv hp]
          unfold TicketInv updateVisit updateTicket
          dsimp only
          refine ticketListInv_map inv _ ?_ ?_ ?_ ?_
          · intro u _
            by_cases h : u.ticketId == t.ticketId <;> simp [h]
          · intro u _
            by_cases h : u.ticketId == t.ticketId <;> simp [h]
          · intro u _
            by_cases h : u.ticketId == t.ticketId <;> simp [h]
          · intro u hu ha
            by_cases h : u.ticketId == t.ticketId
            · have hmem := List.mem_of_find?_eq_some hf
              have hu_eq : u = t :=
                List.inj_on_of_nodup_map inv.nodupIds hu hmem (beq_iff_eq.mp h)
              rw [hu_eq]
              have hs2 : t.queueStatus = "WAITING" ∨ t.queueStatus = "CALLED" := by
                simpa using hs
              rcases hs2 with hw | hc
              · simp [activeStatusB, hw]
              · simp [activeStatusB, hc]
            · simp only [h, Bool.false_eq_true, if_neg, not_false_eq_true] at ha
              exact ha

theorem complete_ticketInv (db : DB) (now tid : Nat) (inv : TicketInv db) :
    TicketInv (complete_appointment db now tid).2 := by
  cases hf : db.tickets.find? (fun u => u.ticketId == tid) with
  | none => rw [complete_notFound db now tid hf]; exact inv
  | some t =>
    cases hv : db.visits.find? (fun u => u.visitId == t.visitId) with
    | none => rw [complete_noVisit db now tid t hf hv]; exact inv
    | some v =>
      rw [complete_ok db now tid t v hf hv]
      unfold TicketInv updateVisit updateTicket
      dsimp only
      refine ticketListInv_map inv _ ?_ ?_ ?_ ?_
      · intro u _
        by_cases h : u.ticketId == tid <;> simp [h]
      · intro u _
        by_cases h : u.ticketId == tid <;> simp [h]
      · intro u _
        by_cases h : u.ticketId == tid <;> simp [h]
      · intro u _ ha
        by_cases h : u.ticketId == tid
        · simp only [h, if_pos] at ha
          simp [activeStatusB] at ha
        · simp only [h, Bool.false_eq_true, if_neg, not_false_eq_true] at ha
          exact ha

theorem qr_ticketInv (db : DB) (now today : Nat) (req : QRReq)
    (inv : TicketInv db) : TicketInv (qr_checkin db now today req).2 := by
  cases hf : db.patients.find? (fun q =>
      q.phoneNumber == req.phoneNumber && q.isActive == true) with
  | some p =>
    rw [qr_checkin_found db now today req p hf]
    exact qrProceed_ticketInv db now today p.patientId inv
  | none =>
    cases hreq : (optStrFalsy req.firstName || optStrFalsy req.lastName ||
        req.dateOfBirth.isNone) with
    | true => rw [qr_checkin_badRequest db now today req hf hreq]; exact inv
    | false =>
      rw [qr_checkin_newPatient db now today req hf hreq]
      exact qrProceed_ticketInv _ now today db.nextPatientId inv

theorem send_otp_snd_tickets (db : DB) (now : Nat) (phone newCode : String) :
    (send_otp db now phone newCode).2.tickets = db.tickets ∧
    (send_otp db now phone newCode).2.nextTicketId = db.nextTicketId := by
  unfold send_otp
  cases h : db.otps.find? (fun o =>
      o.phoneNumber == phone && o.isExpired == false && o.isVerified == false) with
  | none => exact ⟨rfl, rfl⟩
  | some o =>
    by_cases h2 : o.maxAttempts ≤ o.retryCount
    · simp [h2]
    · simp [h2, updateOtp]

theorem sms_checkin_snd_tickets (db : DB) (now today : Nat)
    (phone body newCode : String) :
    (sms_checkin db now today phone body newCode).2.tickets = db.tickets ∧
    (sms_checkin db now today phone body newCode).2.nextTicketId =
      db.nextTicketId := by
  unfold sms_checkin
  by_cases h1 : body.trim.toUpper == "JOIN"
  · simp only [h1, Bool.not_true, Bool.false_eq_true, if_neg, not_false_eq_true]
    cases h2 : db.patients.find? (fun p =>
        p.phoneNumber == phone && p.isActive == true) with
    | none => exact ⟨rfl, rfl⟩
    | some p =>
      dsimp only
      cases h3 : db.visits.find? (fun v =>
          v.patientId == p.patientId && v.visitDate == today &&
          v.visitStatus == "scheduled") with
      | none => exact ⟨rfl, rfl⟩
      | some v =>
        dsimp only
        by_cases h4 : v.checkInDatetime.isSome <;> simp [h4]
  · simp only [Bool.not_eq_true] at h1
    simp [h1]

theorem ticketInv_applyOp (op : Op) (db : DB)
    (hop : op.isPatchStatus = false) (inv : TicketInv db) :
    TicketInv (applyOp op db) := by
  cases op with
  | verifyOp now today req => exact verify_ticketInv db now today req inv
  | qrOp now today req => exact qr_ticketInv db now today req inv
  | startOp now tid => exact start_ticketInv db now tid inv
  | completeOp now tid => exact complete_ticketInv db now tid inv
  | patchOp now tid s => exact absurd hop (by simp [Op.isPatchStatus])
  | sendOp now phone code =>
    have h := send_otp_snd_tickets db now phone code
    unfold TicketInv
    rw [show (applyOp (Op.sendOp now phone code) db) =
      (send_otp db now phone code).2 from rfl, h.1, h.2]
    exact inv
  | smsOp now today phone body code =>
    have h := sms_checkin_snd_tickets db now today phone body code
    unfold TicketInv
    rw [show (applyOp (Op.smsOp now today phone body code) db) =
      (sms_checkin db now today phone body code).2 from rfl, h.1, h.2]
    exact inv

theorem ticketInv_runOps (ops : List Op) (db : DB)
    (hops : ∀ op ∈ ops, op.isPatchStatus = false) (inv : TicketInv db) :
    TicketInv (runOps ops db) := by
  induction ops generalizing db with
  | nil => exact inv
  | cons op rest ih =>
    exact ih (applyOp op db)
      (fun o ho => hops o (List.mem_cons_of_mem op ho))
      (ticketInv_applyOp op db (hops op (List.mem_cons_self op rest)) inv)

theorem ticketInv_of_noTickets (db : DB) (h : db.tickets = []) : TicketInv db := by
  unfold TicketInv
  rw [h]
  exact ⟨List.nodup_nil, by simp, by simp, by simp, List.Pairwise.nil⟩

theorem countOpen_append (vs : List Visit) (nv : Visit) (pid d : Nat) :
    countOpen (vs ++ [nv]) pid d =
      countOpen vs pid d + (if openVisitPred pid d nv then 1 else 0) := by
  unfold countOpen
  rw [List.filter_append, List.length_append]
  congr 1
  by_cases h : openVisitPred pid d nv <;> simp [List.filter, h]

theorem countOpen_zero_of_find_none (vs : List Visit) (pid d : Nat)
    (h : vs.find? (openVisitPred pid d) = none) : countOpen vs pid d = 0 := by
  unfold countOpen
  rw [List.length_eq_zero, List.filter_eq_nil_iff]
  intro a ha
  simpa using List.find?_eq_none.mp h a ha

theorem verify_atMostOneOpen (db : DB) (now today : Nat) (req : OTPVerifyReq)
    (inv : atMostOneOpen db) :
    atMostOneOpen (verify_otp_and_checkin db now today req).2 := by
  cases h1 : otpFindValid db req.phoneNumber req.otpCode now with
  | none => rw [verify_checkin_invalid db now today req h1]; exact inv
  | some o =>
    rcases Nat.lt_or_ge o.retryCount o.maxAttempts with h2 | h2
    · cases h3 : o.patientId.bind
          (fun pid => db.patients.find? (fun q => q.patientId == pid)) with
      | none => rw [verify_checkin_noPatient db now today req o h1 h2 h3]; exact inv
      | some p =>
        cases h4 : db.visits.find? (openVisitPred p.patientId today) with
        | some ev =>
          rw [verify_checkin_existingVisit db now today req o p ev h1 h2 h3 h4]
          exact inv
        | none =>
          rw [verify_checkin_newVisit db now today req o p h1 h2 h3 h4]
          intro pid d
          show countOpen (db.visits ++
            [⟨db.nextVisitId, p.patientId, req.departmentId, req.doctorId, today,
              some now, some req.checkInMethod, "ACTIVE", none⟩]) pid d ≤ 1
          rw [countOpen_append]
          by_cases hp : openVisitPred pid d
              ⟨db.nextVisitId, p.patientId, req.departmentId, req.doctorId, today,
                some now, some req.checkInMethod, "ACTIVE", none⟩
          · have hpd : p.patientId = pid ∧ today = d := by
              simpa [openVisitPred, openStatusB] using hp
            rw [if_pos hp, ← hpd.1, ← hpd.2,
              countOpen_zero_of_find_none db.visits p.patientId today h4]
          · rw [if_neg hp]
            simpa using inv pid d
    · rw [verify_checkin_exhausted db now today req o h1 h2]
      exact inv

theorem qr_otps (db : DB) (now today : Nat) (req : QRReq) :
    (qr_checkin db now today req).2.otps = db.otps := by
  cases hf : db.patients.find? (fun q =>
      q.phoneNumber == req.phoneNumber && q.isActive == true) with
  | some p => rw [qr_checkin_found db now today req p hf]; rfl
  | none =>
    cases hreq : (optStrFalsy req.firstName || optStrFalsy req.lastName ||
        req.dateOfBirth.isNone) with
    | true => rw [qr_checkin_badRequest db now today req hf hreq]
    | false => rw [qr_checkin_newPatient db now today req hf hreq]; rfl

theorem start_otps (db : DB) (now tid : Nat) :
    (start_appointment db now tid).2.otps = db.otps := by
  cases hf : db.tickets.find? (fun u => u.ticketId == tid) with
  | none => rw [start_notFound db now tid hf]
  | some t =>
    cases hs : (t.queueStatus == "WAITING" || t.queueStatus == "CALLED") with
    | false => rw [start_badStatus db now tid t hf hs]
    | true =>
      cases hv : db.visits.find? (fun u => u.visitId == t.visitId) with
      | none => rw [start_noVisit db now tid t hf hs hv]
      | some v =>
        cases hp : db.patients.find? (fun q => q.patientId == v.patientId) with
        | none => rw [start_noPatient db now tid t v hf hs hv hp]
        | some p => rw [start_ok db now tid t v p hf hs hv hp]; rfl

theorem complete_otps (db : DB) (now tid : Nat) :
    (complete_appointment db now tid).2.otps = db.otps := by
  cases hf : db.tickets.find? (fun u => u.ticketId == tid) with
  | none => rw [complete_notFound db now tid hf]
  | some t =>
    cases hv : db.visits.find? (fun u => u.visitId == t.visitId) with
    | none => rw [complete_noVisit db now tid t hf hv]
    | some v => rw [complete_ok db now tid t v hf hv]; rfl

theorem patch_otps (db : DB) (now tid : Nat) (s : String) :
    (update_appointment_status db now tid s).2.otps = db.otps := by
  cases hvalid : valid_statuses.contains s with
  | false => rw [patch_invalid db now tid s hvalid]
  | true =>
    cases hf : db.tickets.find? (fun u => u.ticketId == tid) with
    | none => rw [patch_notFound db now tid s hvalid hf]
    | some t => rw [patch_ok db now tid s t hvalid hf]; rfl

theorem applyOp_otps_shape (op : Op) (db : DB) :
    ∃ (g : OTPVerification → OTPVerification) (app : List OTPVerification),
      (applyOp op db).otps = db.otps.map g ++ app ∧
      (∀ o, (g o).otpId = o.otpId ∧ (g o).phoneNumber = o.phoneNumber ∧
        (g o).otpCode = o.otpCode ∧
        (o.isVerified = true → (g o).isVerified = true)) ∧
      (op.isSendOtp = false → ∀ o, (g o).retryCount = o.retryCount) := by
  cases op with
  | qrOp now today req =>
    exact ⟨id, [], by simp [applyOp, qr_otps], fun o => ⟨rfl, rfl, rfl, fun h => h⟩,
      fun _ o => rfl⟩
  | startOp now tid =>
    exact ⟨id, [], by simp [applyOp, start_otps], fun o => ⟨rfl, rfl, rfl, fun h => h⟩,
      fun _ o => rfl⟩
  | completeOp now tid =>
    exact ⟨id, [], by simp [applyOp, complete_otps], fun o => ⟨rfl, rfl, rfl, fun h => h⟩,
      fun _ o => rfl⟩
  | patchOp now tid s =>
    exact ⟨id, [], by simp [applyOp, patch_otps], fun o => ⟨rfl, rfl, rfl, fun h => h⟩,
      fun _ o => rfl⟩
  | verifyOp now today req =>
    show ∃ g app, (verify_otp_and_checkin db now today req).2.otps = _ ∧ _ ∧ _
    cases h1 : otpFindValid db req.phoneNumber req.otpCode now with
    | none =>
      rw [verify_checkin_invalid db now today req h1]
      exact ⟨id, [], by simp, fun o => ⟨rfl, rfl, rfl, fun h => h⟩, fun _ o => rfl⟩
    | some o =>
      rcases Nat.lt_or_ge o.retryCount o.maxAttempts with h2 | h2
      · cases h3 : o.patientId.bind
            (fun pid => db.patients.find? (fun q => q.patientId == pid)) with
        | none =>
          rw [verify_checkin_noPatient db now today req o h1 h2 h3]
          exact ⟨id, [], by simp, fun r => ⟨rfl, rfl, rfl, fun h => h⟩, fun _ r => rfl⟩
        | some p =>
          refine ⟨fun r => if r.otpId == o.otpId then
            { r with isVerified := true, verifiedAt := some now } else r, [], ?_,
            ?_, ?_⟩
          · cases h4 : db.visits.find? (openVisitPred p.patientId today) with
            | some ev =>
              rw [verify_checkin_existingVisit db now today req o p ev h1 h2 h3 h4]
              simp [updateOtp]
            | none =>
              rw [verify_checkin_newVisit db now today req o p h1 h2 h3 h4]
              simp
          · intro r
            by_cases h : r.otpId == o.otpId <;> simp [h]
          · intro _ r
            by_cases h : r.otpId == o.otpId <;> simp [h]
      · rw [verify_checkin_exhausted db now today req o h1 h2]
        refine ⟨fun r => if r.otpId == o.otpId then
          { r with isExpired := true } else r, [], by simp [updateOtp], ?_, ?_⟩
        · intro r
          by_cases h : r.otpId == o.otpId <;> simp [h]
        · intro _ r
          by_cases h : r.otpId == o.otpId <;> simp [h]
  | sendOp now phone newCode =>
    show ∃ g app, (send_otp db now phone newCode).2.otps = _ ∧ _ ∧ _
    cases hfind : db.otps.find? (fun r =>
        r.phoneNumber == phone && r.isExpired == false && r.isVerified == false) with
    | none =>
      refine ⟨id, [⟨db.nextOtpId, phone, newCode, false, false, 0, 3, none,
        now + otpSendTtlMinutes, none⟩], ?_, fun o => ⟨rfl, rfl, rfl, fun h => h⟩,
        fun hc _ => absurd hc (by simp [Op.isSendOtp])⟩
      unfold send_otp
      rw [hfind]
      simp
    | some o =>
      by_cases h2 : o.maxAttempts ≤ o.retryCount
      · refine ⟨id, [], ?_, fun r => ⟨rfl, rfl, rfl, fun h => h⟩,
          fun hc _ => absurd hc (by simp [Op.isSendOtp])⟩
        unfold send_otp
        rw [hfind]
        simp [h2]
      · refine ⟨fun r => if r.otpId == o.otpId then
          { r with retryCount := r.retryCount + 1 } else r, [], ?_, ?_,
          fun hc _ => absurd hc (by simp [Op.isSendOtp])⟩
        · unfold send_otp
          rw [hfind]
          simp [h2, updateOtp]
        · intro r
          by_cases h : r.otpId == o.otpId <;> simp [h]
  | smsOp now today phone body newCode =>
    show ∃ g app, (sms_checkin db now today phone body newCode).2.otps = _ ∧ _ ∧ _
    by_cases h1 : body.trim.toUpper == "JOIN"
    · cases h2 : db.patients.find? (fun p =>
          p.phoneNumber == phone && p.isActive == true) with
      | none =>
        refine ⟨id, [], ?_, fun o => ⟨rfl, rfl, rfl, fun h => h⟩, fun _ o => rfl⟩
        unfold sms_checkin
        simp only [h1, Bool.not_true, Bool.false_eq_true, if_neg, not_false_eq_true]
        rw [h2]
        simp
      | some p =>
        cases h3 : db.visits.find? (fun v =>
            v.patientId == p.patientId && v.visitDate == today &&
            v.visitStatus == "scheduled") with
        | none =>
          refine ⟨id, [], ?_, fun o => ⟨rfl, rfl, rfl, fun h => h⟩, fun _ o => rfl⟩
          unfold sms_checkin
          simp only [h1, Bool.not_true, Bool.false_eq_true, if_neg, not_false_eq_true]
          rw [h2]
          dsimp only
          rw [h3]
          simp
        | some v =>
          by_cases h4 : v.checkInDatetime.isSome
          · refine ⟨id, [], ?_, fun o => ⟨rfl, rfl, rfl, fun h => h⟩, fun _ o => rfl⟩
            unfold sms_checkin
            simp only [h1, Bool.not_true, Bool.false_eq_true, if_neg,
              not_false_eq_true]
            rw [h2]
            dsimp only
            rw [h3]
            simp [h4]
          · refine ⟨id, [⟨db.nextOtpId, phone, newCode, false, false, 0, 3,
              some p.patientId, now + 10, none⟩], ?_,
              fun o => ⟨rfl, rfl, rfl, fun h => h⟩, fun _ o => rfl⟩
            unfold sms_checkin
            simp only [h1, Bool.not_true, Bool.false_eq_true, if_neg,
              not_false_eq_true]
            rw [h2]
            dsimp only
            rw [h3]
            simp [h4]
    · refine ⟨id, [], ?_, fun o => ⟨rfl, rfl, rfl, fun h => h⟩, fun _ o => rfl⟩
      unfold sms_checkin
      simp only [Bool.not_eq_true] at h1
      simp [h1]

theorem applyOp_verified_descendant (op : Op) (db : DB) (o : OTPVerification)
    (ho : o ∈ db.otps) (hv : o.isVerified = true) :
    ∃ o2 ∈ (applyOp op db).otps, o2.otpId = o.otpId ∧
      o2.phoneNumber = o.phoneNumber ∧ o2.otpCode = o.otpCode ∧
      o2.isVerified = true := by
  rcases applyOp_otps_shape op db with ⟨g, app, heq, hg, _⟩
  refine ⟨g o, ?_, (hg o).1, (hg o).2.1, (hg o).2.2.1, (hg o).2.2.2 hv⟩
  rw [heq]
  exact List.mem_append_left _ (List.mem_map_of_mem g ho)

theorem runOps_verified_descendant (ops : List Op) (db : DB)
    (o : OTPVerification) (ho : o ∈ db.otps) (hv : o.isVerified = true) :
    ∃ o2 ∈ (runOps ops db).otps, o2.otpId = o.otpId ∧
      o2.phoneNumber = o.phoneNumber ∧ o2.otpCode = o.otpCode ∧
      o2.isVerified = true := by
  induction ops generalizing db o with
  | nil => exact ⟨o, ho, rfl, rfl, rfl, hv⟩
  | cons op rest ih =>
    rcases applyOp_verified_descendant op db o ho hv with
      ⟨o2, ho2, hid, hph, hcode, hv2⟩
    rcases ih (applyOp op db) o2 ho2 hv2 with ⟨o3, ho3, hid3, hph3, hcode3, hv3⟩
    exact ⟨o3, ho3, hid3.trans hid, hph3.trans hph, hcode3.trans hcode, hv3⟩

theorem otpFindValid_unverified (db : DB) (phone code : String) (now : Nat)
    (o : OTPVerification) (h : otpFindValid db phone code now = some o) :
    o.isVerified = false := by
  have hp := List.find?_some h
  simp only [Bool.and_eq_true, beq_iff_eq] at hp
  exact hp.1.1.2

theorem applyOp_retryCounts (op : Op) (db : DB) (hop : op.isSendOtp = false) :
    ((applyOp op db).otps.map (fun o => o.retryCount)).take db.otps.length =
      db.otps.map (fun o => o.retryCount) := by
  rcases applyOp_otps_shape op db with ⟨g, app, heq, _, hr⟩
  rw [heq, List.map_append, List.map_map]
  have h1 : db.otps.map ((fun o => o.retryCount) ∘ g) =
      db.otps.map (fun o => o.retryCount) :=
    List.map_congr_left (fun o _ => by simp [Function.comp, hr hop o])
  rw [h1]
  have hlen : (db.otps.map (fun o => o.retryCount)).length = db.otps.length :=
    List.length_map _ _
  rw [← hlen, List.take_left]

/-- Claim C1, counterexample: the QR check-in endpoint performs no
duplicate-visit check.  Starting from a store in which patient 1 already has
exactly one open visit on day 0, a QR check-in for the phone of that patient
leaves the store with two open visits for (patient 1, day 0), so the claimed
invariant is not preserved by the QR admission path. -/
theorem C1_counterexample :
    countOpen dbDup.visits 1 0 = 1 ∧
    countOpen (qr_checkin dbDup 0 0 reqQRp1).2.visits 1 0 = 2 := by
  exact ⟨rfl, rfl⟩

/-- Claim C1 (amended): the OTP-verified check-in preserves the
at-most-one-open-visit-per-(patient, date) invariant and is idempotent — when
an open visit already exists for the matched patient today, it returns that
visit and its ticket with the already-checked-in message and creates no new
visit or ticket.  The QR check-in path does not preserve the invariant (see
the counterexample). -/
theorem C1_otp_admission (db : DB) (now today : Nat) (req : OTPVerifyReq) :
    (atMostOneOpen db →
      atMostOneOpen (verify_otp_and_checkin db now today req).2) ∧
    (∀ o p ev, otpFindValid db req.phoneNumber req.otpCode now = some o →
      o.retryCount < o.maxAttempts →
      o.patientId.bind
        (fun pid => db.patients.find? (fun q => q.patientId == pid)) = some p →
      db.visits.find? (openVisitPred p.patientId today) = some ev →
      (verify_otp_and_checkin db now today req).1.success = true ∧
      (verify_otp_and_checkin db now today req).1.message =
        "Already checked in for today" ∧
      (verify_otp_and_checkin db now today req).1.visitId = some ev.visitId ∧
      (verify_otp_and_checkin db now today req).1.ticketId =
        (db.tickets.find? (fun t => t.visitId == ev.visitId)).map
          (fun t => t.ticketId) ∧
      (verify_otp_and_checkin db now today req).2.visits = db.visits ∧
      (verify_otp_and_checkin db now today req).2.tickets = db.tickets) := by
  constructor
  · exact verify_atMostOneOpen db now today req
  · intro o p ev h1 h2 h3 h4
    rw [verify_checkin_existingVisit db now today req o p ev h1 h2 h3 h4]
    exact ⟨rfl, rfl, rfl, rfl, rfl, rfl⟩

/-- Witness for C1: on the concrete store `dbDup` (patient 1 already checked
in, visit 7, ticket 9) the OTP check-in returns visit 7 and ticket 9 and
leaves the visit table unchanged, and the invariant holds afterwards. -/
theorem C1_witness :
    atMostOneOpen (verify_otp_and_checkin dbDup 0 0 reqVp1).2 ∧
    (verify_otp_and_checkin dbDup 0 0 reqVp1).1.visitId = some 7 ∧
    (verify_otp_and_checkin dbDup 0 0 reqVp1).1.ticketId = some 9 ∧
    (verify_otp_and_checkin dbDup 0 0 reqVp1).2.visits = dbDup.visits := by
  have h := C1_otp_admission dbDup 0 0 reqVp1
  have hinv : atMostOneOpen dbDup := by
    intro pid d
    show countOpen [visitOpenA] pid d ≤ 1
    unfold countOpen
    cases hq : openVisitPred pid d visitOpenA <;>
      simp [List.filter_cons, hq]
  have h2 := h.2 otpFresh patientA visitOpenA (by decide) (by decide)
    (by decide) (by decide)
  exact ⟨h.1 hinv, h2.2.2.1, by rw [h2.2.2.2.1]; decide, h2.2.2.2.2.1⟩

/-- Claim C2, counterexample: the OTP admission path assigns position
`max(active positions) + 1`, not `1 + count(active tickets)`.  With a single
active ticket sitting at position 5, the claim predicts position 2 but the
code assigns position 6. -/
theorem C2_counterexample :
    countActiveDate dbPos5.tickets 0 = 1 ∧
    (verify_otp_and_checkin dbPos5 0 0 reqVp1).1.queuePosition = some 6 ∧
    (verify_otp_and_checkin dbPos5 0 0 reqVp1).1.queuePosition ≠
      some (1 + (countActiveDate dbPos5.tickets 0 : Int)) := by
  refine ⟨rfl, rfl, fun h => ?_⟩
  have h6 : (verify_otp_and_checkin dbPos5 0 0 reqVp1).1.queuePosition =
      some 6 := rfl
  rw [h6] at h
  exact absurd h (by decide)

/-- Claim C2 (amended): on the OTP path the position assigned to the new
ticket equals `1 + max(position over active tickets of the day)` (0 when the
day has no active ticket), and the estimated wait is
`(position - 1) * average_service_time`.  When the active positions are
exactly 1..n this coincides with `1 + count`, which yields the claimed
Scenario C outcome (position 3, wait 40) — see the witness. -/
theorem C2_position_assignment (db : DB) (now today : Nat) (req : OTPVerifyReq)
    (o : OTPVerification) (p : Patient)
    (h1 : otpFindValid db req.phoneNumber req.otpCode now = some o)
    (h2 : o.retryCount < o.maxAttempts)
    (h3 : o.patientId.bind
      (fun pid => db.patients.find? (fun q => q.patientId == pid)) = some p)
    (h4 : db.visits.find? (openVisitPred p.patientId today) = none) :
    (verify_otp_and_checkin db now today req).1.queuePosition =
      some (sqlMaxD0 (activePositions db.tickets today) + 1) ∧
    (verify_otp_and_checkin db now today req).1.estimatedWaitTime =
      some (estimateWait (sqlMaxD0 (activePositions db.tickets today) + 1)
        (deptServiceTime db req.departmentId)) := by
  rw [verify_checkin_newVisit db now today req o p h1 h2 h3 h4]
  exact ⟨rfl, rfl⟩

/-- Witness for C2 (Scenario C of the spec): with two active tickets at
positions 1 and 2 and department average service time 20, admitting a third
patient yields position 3 and estimated wait 40. -/
theorem C2_witness :
    countActiveDate dbScenC.tickets 0 = 2 ∧
    (verify_otp_and_checkin dbScenC 0 0 reqVdept).1.queuePosition = some 3 ∧
    (verify_otp_and_checkin dbScenC 0 0 reqVdept).1.estimatedWaitTime =
      some 40 := by
  have h := C2_position_assignment dbScenC 0 0 reqVdept otpFresh patientA
    (by decide) (by decide) (by decide) (by decide)
  refine ⟨rfl, ?_, ?_⟩
  · rw [h.1]; decide
  · rw [h.2]; decide

/-- Claim C3, counterexample: starting from a store with no tickets, a
sequence of admissions and status transitions of the service — two OTP
admissions, completing ticket 2, a third OTP admission (which is handed the
reusable position 2), then the status-update endpoint moving ticket 2 back to
WAITING — reaches a state with two active tickets of the same date sharing
position 2. -/
theorem C3_counterexample :
    dbTrace.tickets = [] ∧
    uniqueActivePositions (runOps opsPatchTrace dbTrace).tickets = false := by
  exact ⟨rfl, rfl⟩

/-- Claim C3 (amended): in every state reachable from a ticketless store by
any sequence of admissions (OTP and QR) and the dedicated lifecycle
operations (start, complete) together with the OTP issue endpoints — i.e.
every endpoint except the generic PATCH status update — no two active-status
tickets of the same queue date share a position, and every assigned position
is non-negative.  The PATCH endpoint can break uniqueness by moving a
completed ticket whose position was already reused back into an active
status (see the counterexample). -/
theorem C3_amended_uniqueness (ops : List Op) (db0 : DB)
    (h0 : db0.tickets = [])
    (hops : ∀ op ∈ ops, op.isPatchStatus = false) :
    (runOps ops db0).tickets.Pairwise PosUniq ∧
    ∀ t ∈ (runOps ops db0).tickets, 0 ≤ t.queuePosition := by
  have inv := ticketInv_runOps ops db0 hops (ticketInv_of_noTickets db0 h0)
  refine ⟨inv.uniq, fun t ht => ?_⟩
  have := inv.posPos t ht
  omega

/-- Witness for C3: the patch-free prefix of the counterexample trace (two
OTP admissions, one completion, a third OTP admission) satisfies uniqueness
and non-negativity. -/
theorem C3_witness :
    (runOps opsCoreTrace dbTrace).tickets.Pairwise PosUniq ∧
    ∀ t ∈ (runOps opsCoreTrace dbTrace).tickets, 0 ≤ t.queuePosition :=
  C3_amended_uniqueness opsCoreTrace dbTrace rfl (by decide)

/-- Claim C4, counterexample: a verify call on an attempt-exhausted record
(retry_count = 3 = max_attempts) that submits a wrong code does not fail with
the AttemptsExceeded message — the lookup simply misses and the call fails
with the invalid/expired message instead, so the "regardless of whether the
submitted code is correct" part of the claim is false. -/
theorem C4_counterexample :
    otpSpent.retryCount = 3 ∧ otpSpent.maxAttempts = 3 ∧
    otpSpent.isExpired = false ∧
    (verify_otp_and_checkin dbSpent 0 0 reqBad).1.success = false ∧
    (verify_otp_and_checkin dbSpent 0 0 reqBad).1.message =
      "Invalid or expired OTP" ∧
    (verify_otp_and_checkin dbSpent 0 0 reqBad).1.message ≠
      "Maximum OTP verification attempts exceeded" := by
  refine ⟨rfl, rfl, rfl, rfl, rfl, ?_⟩
  decide

/-- Claim C4 (amended): once the retry counter of an OTP record has reached its
max_attempts ceiling, verification can never succeed for it: a verify call
whose submitted code matches the (still unexpired, unverified) record fails
with the AttemptsExceeded message and marks the record expired; a call that
matches no record fails with the invalid/expired message and leaves the
store unchanged; and any successful verification must have matched a record
whose retry counter was below the ceiling. -/
theorem C4_attempt_ceiling (db : DB) (now today : Nat) (req : OTPVerifyReq) :
    (∀ o, otpFindValid db req.phoneNumber req.otpCode now = some o →
      o.maxAttempts ≤ o.retryCount →
      (verify_otp_and_checkin db now today req).1.success = false ∧
      (verify_otp_and_checkin db now today req).1.message =
        "Maximum OTP verification attempts exceeded" ∧
      ∀ r ∈ (verify_otp_and_checkin db now today req).2.otps,
        r.otpId = o.otpId → r.isExpired = true) ∧
    (otpFindValid db req.phoneNumber req.otpCode now = none →
      (verify_otp_and_checkin db now today req).1.success = false ∧
      (verify_otp_and_checkin db now today req).1.message =
        "Invalid or expired OTP" ∧
      (verify_otp_and_checkin db now today req).2 = db) ∧
    ((verify_otp_and_checkin db now today req).1.success = true →
      ∃ o, otpFindValid db req.phoneNumber req.otpCode now = some o ∧
        o.retryCount < o.maxAttempts) := by
  refine ⟨?_, ?_, ?_⟩
  · intro o h1 h2
    rw [verify_checkin_exhausted db now today req o h1 h2]
    refine ⟨rfl, rfl, ?_⟩
    intro r hr hid
    rcases List.mem_map.mp hr with ⟨r0, _, rfl⟩
    by_cases h : r0.otpId == o.otpId
    · simp [h]
    · simp only [h, Bool.false_eq_true, if_neg, not_false_eq_true] at hid
      exact absurd hid (by simpa using h)
  · intro h1
    rw [verify_checkin_invalid db now today req h1]
    exact ⟨rfl, rfl, rfl⟩
  · intro hsucc
    cases h1 : otpFindValid db req.phoneNumber req.otpCode now with
    | none =>
      rw [verify_checkin_invalid db now today req h1] at hsucc
      cases hsucc
    | some o =>
      rcases Nat.lt_or_ge o.retryCount o.maxAttempts with h2 | h2
      · exact ⟨o, rfl, h2⟩
      · rw [verify_checkin_exhausted db now today req o h1 h2] at hsucc
        cases hsucc

/-- Witness for C4 (Scenario E of the spec): on the concrete store with an
OTP record having retry_count = 3 = max_attempts, a verify call with the
matching code fails with the AttemptsExceeded message and the is_expired
flag of the record becomes true. -/
theorem C4_witness :
    (verify_otp_and_checkin dbSpent 0 0 reqGood).1.success = false ∧
    (verify_otp_and_checkin dbSpent 0 0 reqGood).1.message =
      "Maximum OTP verification attempts exceeded" ∧
    ∀ r ∈ (verify_otp_and_checkin dbSpent 0 0 reqGood).2.otps,
      r.otpId = 1 → r.isExpired = true := by
  have h := (C4_attempt_ceiling dbSpent 0 0 reqGood).1 otpSpent
    (by decide) (by decide)
  exact ⟨h.1, h.2.1, fun r hr hid => h.2.2 r hr hid⟩

/-- Claim C5: OTP verification is terminal and single-use — the verify lookup
can only ever match an unverified record, and once a record is verified every
program operation preserves a record with the same primary key, phone and
code that is still verified, over any sequence of endpoint invocations.  So a
verified code can never satisfy verify again. -/
theorem C5_otp_single_use (db : DB) (ops : List Op) (o : OTPVerification)
    (ho : o ∈ db.otps) (hv : o.isVerified = true) :
    (∃ o2 ∈ (runOps ops db).otps, o2.otpId = o.otpId ∧
      o2.phoneNumber = o.phoneNumber ∧ o2.otpCode = o.otpCode ∧
      o2.isVerified = true) ∧
    (∀ phone code now o3,
      otpFindValid (runOps ops db) phone code now = some o3 →
      o3.isVerified = false) :=
  ⟨runOps_verified_descendant ops db o ho hv,
   fun phone code now o3 h3 =>
     otpFindValid_unverified (runOps ops db) phone code now o3 h3⟩

/-- Witness for C5: the verified record of `dbVerified` survives a
subsequent OTP send for another phone, still verified and with the same key,
phone and code. -/
theorem C5_witness :
    ∃ o2 ∈ (runOps [Op.sendOp 0 "xyz" "1234"] dbVerified).otps,
      o2.otpId = 4 ∧ o2.phoneNumber = "p1" ∧ o2.otpCode = "777777" ∧
      o2.isVerified = true :=
  (C5_otp_single_use dbVerified [Op.sendOp 0 "xyz" "1234"] otpDone
    (by decide) rfl).1

/-- Claim C6: the start operation succeeds only from WAITING or CALLED; on
any other current status it fails with a message reporting that status and
mutates nothing; on success it sets the ticket to IN_PROGRESS with
started_at stamped, and mirrors the visit status to IN_PROGRESS. -/
theorem C6_start_transition (db : DB) (now tid : Nat) :
    (∀ t, db.tickets.find? (fun u => u.ticketId == tid) = some t →
      (t.queueStatus == "WAITING" || t.queueStatus == "CALLED") = false →
      (start_appointment db now tid).1.success = false ∧
      (start_appointment db now tid).1.message =
        "Cannot start appointment. Current status: " ++ t.queueStatus ∧
      (start_appointment db now tid).2 = db) ∧
    ((start_appointment db now tid).1.success = true →
      ∃ t v, db.tickets.find? (fun u => u.ticketId == tid) = some t ∧
        (t.queueStatus = "WAITING" ∨ t.queueStatus = "CALLED") ∧
        db.visits.find? (fun u => u.visitId == t.visitId) = some v ∧
        (∀ u ∈ (start_appointment db now tid).2.tickets, u.ticketId = tid →
          u.queueStatus = "IN_PROGRESS" ∧ u.startedAt = some now) ∧
        (∀ w ∈ (start_appointment db now tid).2.visits, w.visitId = t.visitId →
          w.visitStatus = "IN_PROGRESS")) := by
  constructor
  · intro t hf hs
    rw [start_badStatus db now tid t hf hs]
    exact ⟨rfl, rfl, rfl⟩
  · intro hsucc
    cases hf : db.tickets.find? (fun u => u.ticketId == tid) with
    | none => rw [start_notFound db now tid hf] at hsucc; cases hsucc
    | some t =>
      have htid : t.ticketId = tid := by
        simpa using List.find?_some hf
      cases hs : (t.queueStatus == "WAITING" || t.queueStatus == "CALLED") with
      | false => rw [start_badStatus db now tid t hf hs] at hsucc; cases hsucc
      | true =>
        cases hv : db.visits.find? (fun u => u.visitId == t.visitId) with
        | none => rw [start_noVisit db now tid t hf hs hv] at hsucc; cases hsucc
        | some v =>
          have hvid : v.visitId = t.visitId := by
            simpa using List.find?_some hv
          cases hp : db.patients.find? (fun q => q.patientId == v.patientId) with
          | none =>
            rw [start_noPatient db now tid t v hf hs hv hp] at hsucc
            cases hsucc
          | some p =>
            refine ⟨t, v, rfl, by simpa using hs, hv, ?_, ?_⟩
            · intro u hu hid
              rw [start_ok db now tid t v p hf hs hv hp] at hu
              rcases List.mem_map.mp hu with ⟨u0, _, rfl⟩
              by_cases h : u0.ticketId == t.ticketId
              · simp [h]
              · simp only [h, Bool.false_eq_true, if_neg,
                  not_false_eq_true] at hid
                rw [htid] at h
                exact absurd hid (by simpa using h)
            · intro w hw hid
              rw [start_ok db now tid t v p hf hs hv hp] at hw
              rcases List.mem_map.mp hw with ⟨w0, _, rfl⟩
              by_cases h : w0.visitId == v.visitId
              · simp [h]
              · simp only [h, Bool.false_eq_true, if_neg,
                  not_false_eq_true] at hid
                rw [hvid] at h
                exact absurd hid (by simpa using h)

/-- Witness for C6 (Scenario D of the spec plus the success case): starting a
COMPLETED ticket fails with a message containing COMPLETED and leaves the
store unchanged; starting the WAITING ticket of `dbDup` succeeds with the
ticket and visit moved to IN_PROGRESS. -/
theorem C6_witness :
    ((start_appointment dbCompleted 7 3).1.success = false ∧
     (start_appointment dbCompleted 7 3).1.message =
       "Cannot start appointment. Current status: " ++ "COMPLETED" ∧
     (start_appointment dbCompleted 7 3).2 = dbCompleted) ∧
    (∃ t v, dbDup.tickets.find? (fun u => u.ticketId == 9) = some t ∧
      (t.queueStatus = "WAITING" ∨ t.queueStatus = "CALLED") ∧
      dbDup.visits.find? (fun u => u.visitId == t.visitId) = some v ∧
      (∀ u ∈ (start_appointment dbDup 7 9).2.tickets, u.ticketId = 9 →
        u.queueStatus = "IN_PROGRESS" ∧ u.startedAt = some 7) ∧
      (∀ w ∈ (start_appointment dbDup 7 9).2.visits, w.visitId = t.visitId →
        w.visitStatus = "IN_PROGRESS")) := by
  constructor
  · have h := (C6_start_transition dbCompleted 7 3).1 ticketCompleted
      (by decide) (by decide)
    exact ⟨h.1, h.2.1, h.2.2⟩
  · exact (C6_start_transition dbDup 7 9).2 (by decide)

/-- Claim C7: the OTP issue endpoint fails with HTTP 429 (leaving the store
untouched) when an unexpired, unverified record for the phone has reached its
retry ceiling; below the ceiling it increments the retry counter of that record
and returns the stored code; and when no such record exists it appends a
fresh record with retry_count 0, max_attempts 3, and an expiry 5 minutes
from now (within the claimed 5-10 minute window). -/
theorem C7_otp_issue (db : DB) (now : Nat) (phone newCode : String) :
    (∀ o, db.otps.find? (fun r => r.phoneNumber == phone &&
        r.isExpired == false && r.isVerified == false) = some o →
      o.maxAttempts ≤ o.retryCount →
      (send_otp db now phone newCode).1.success = false ∧
      (send_otp db now phone newCode).1.httpStatus = 429 ∧
      (send_otp db now phone newCode).2 = db) ∧
    (∀ o, db.otps.find? (fun r => r.phoneNumber == phone &&
        r.isExpired == false && r.isVerified == false) = some o →
      o.retryCount < o.maxAttempts →
      (send_otp db now phone newCode).1.success = true ∧
      (send_otp db now phone newCode).1.otpCode = some o.otpCode ∧
      (send_otp db now phone newCode).2.otps =
        db.otps.map (fun r => if r.otpId == o.otpId then
          { r with retryCount := r.retryCount + 1 } else r)) ∧
    (db.otps.find? (fun r => r.phoneNumber == phone &&
        r.isExpired == false && r.isVerified == false) = none →
      (send_otp db now phone newCode).2.otps = db.otps ++
        [⟨db.nextOtpId, phone, newCode, false, false, 0, 3, none,
          now + otpSendTtlMinutes, none⟩] ∧
      5 ≤ otpSendTtlMinutes ∧ otpSendTtlMinutes ≤ 10) := by
  refine ⟨?_, ?_, ?_⟩
  · intro o hfind h2
    unfold send_otp
    rw [hfind]
    simp [h2]
  · intro o hfind h2
    unfold send_otp
    rw [hfind]
    simp [Nat.not_le.mpr h2, updateOtp]
  · intro hfind
    unfold send_otp
    rw [hfind]
    exact ⟨rfl, by decide, by decide⟩

/-- Witness for C7: the three branches at concrete inputs — 429 on the
exhausted record, code reuse plus retry increment below the ceiling, and
fresh-record creation with a 5-minute expiry on an empty store. -/
theorem C7_witness :
    (send_otp dbSpent 0 "p1" "1111").1.httpStatus = 429 ∧
    (send_otp dbSendOne 0 "p1" "9999").1.otpCode = some "4321" ∧
    (send_otp emptyDB 3 "p9" "1234").2.otps =
      [⟨1, "p9", "1234", false, false, 0, 3, none, 8, none⟩] := by
  refine ⟨((C7_otp_issue dbSpent 0 "p1" "1111").1 otpSpent (by decide)
    (by decide)).2.1, ?_, ?_⟩
  · exact ((C7_otp_issue dbSendOne 0 "p1" "9999").2.1
      ⟨1, "p1", "4321", false, false, 1, 3, none, 9, none⟩
      (by decide) (by decide)).2.1
  · have h := ((C7_otp_issue emptyDB 3 "p9" "1234").2.2 rfl).1
    rw [h]
    decide

/-- Claim C8: the wait-time estimator of the admission path is
`estimate(position, s) = (position - 1) * s`, with 30 minutes used as the
service time when the department lookup yields nothing, and
`estimate(1, s) = 0` for every s; the estimated wait reported by the OTP
admission is exactly the estimator applied to the assigned position and the
resolved service time. -/
theorem C8_estimator (db : DB) (now today : Nat) (req : OTPVerifyReq)
    (o : OTPVerification) (p : Patient) :
    (∀ pos s : Int, estimateWait pos s = (pos - 1) * s) ∧
    (∀ s : Int, estimateWait 1 s = 0) ∧
    (req.departmentId.bind
        (fun i => db.departments.find? (fun d => d.departmentId == i)) = none →
      deptServiceTime db req.departmentId = 30) ∧
    (otpFindValid db req.phoneNumber req.otpCode now = some o →
      o.retryCount < o.maxAttempts →
      o.patientId.bind
        (fun pid => db.patients.find? (fun q => q.patientId == pid)) = some p →
      db.visits.find? (openVisitPred p.patientId today) = none →
      (verify_otp_and_checkin db now today req).1.estimatedWaitTime =
        some (estimateWait (sqlMaxD0 (activePositions db.tickets today) + 1)
          (deptServiceTime db req.departmentId))) := by
  refine ⟨fun pos s => rfl, fun s => ?_, fun h => ?_, fun h1 h2 h3 h4 => ?_⟩
  · unfold estimateWait
    ring
  · unfold deptServiceTime
    rw [h]
  · rw [verify_checkin_newVisit db now today req o p h1 h2 h3 h4]

/-- Witness for C8: with no department table and a missing department id the
resolved service time is the 30-minute default, the single-active-ticket
store yields estimated wait (6-1)*30 = 150, and estimate(1, 20) = 0. -/
theorem C8_witness :
    deptServiceTime dbPos5 reqVp1.departmentId = 30 ∧
    (verify_otp_and_checkin dbPos5 0 0 reqVp1).1.estimatedWaitTime =
      some 150 ∧
    estimateWait 1 20 = 0 := by
  have h := C8_estimator dbPos5 0 0 reqVp1 otpFresh patientA
  refine ⟨h.2.2.1 rfl, ?_, h.2.1 20⟩
  have h4 := h.2.2.2 (by decide) (by decide) (by decide) (by decide)
  rw [h4]
  decide

/-- Claim C9: for any existing ticket and any status in the whitelist, the
PATCH status update succeeds and sets exactly that status — with no
constraint whatsoever on the current ticket status, so transitions out of
COMPLETED or CANCELLED are accepted — and the associated visit row is never
touched. -/
theorem C9_patch_sets_status (db : DB) (now tid : Nat) (s : String)
    (t : QueueTicket)
    (hvalid : valid_statuses.contains s = true)
    (hf : db.tickets.find? (fun u => u.ticketId == tid) = some t) :
    (update_appointment_status db now tid s).1.success = true ∧
    (∀ u ∈ (update_appointment_status db now tid s).2.tickets,
      u.ticketId = tid → u.queueStatus = s) ∧
    (update_appointment_status db now tid s).2.visits = db.visits := by
  rw [patch_ok db now tid s t hvalid hf]
  refine ⟨rfl, ?_, rfl⟩
  intro u hu hid
  rcases List.mem_map.mp hu with ⟨u0, _, rfl⟩
  by_cases h : u0.ticketId == tid
  · simp [h]
  · simp only [h, Bool.false_eq_true, if_neg, not_false_eq_true] at hid
    exact absurd hid (by simpa using h)

/-- Witness for C9: PATCHing the COMPLETED ticket of `dbCompleted` back to
WAITING succeeds, sets WAITING, and leaves the visit table unchanged. -/
theorem C9_witness :
    (update_appointment_status dbCompleted 1 3 "WAITING").1.success = true ∧
    (∀ u ∈ (update_appointment_status dbCompleted 1 3 "WAITING").2.tickets,
      u.ticketId = 3 → u.queueStatus = "WAITING") ∧
    (update_appointment_status dbCompleted 1 3 "WAITING").2.visits =
      dbCompleted.visits :=
  C9_patch_sets_status dbCompleted 1 3 "WAITING" ticketCompleted
    (by decide) (by decide)

/-- Claim C10: the verify operation never touches the retry counter of any record
(the retry counters of the whole OTP table are unchanged by every verify
call); a verify call that matches no record fails and leaves the entire
store unchanged; and apart from the issue/resend endpoint, no operation of
the service changes the retry counter of any pre-existing record. -/
theorem C10_verify_frame (db : DB) (now today : Nat) (req : OTPVerifyReq) :
    (otpFindValid db req.phoneNumber req.otpCode now = none →
      (verify_otp_and_checkin db now today req).1.success = false ∧
      (verify_otp_and_checkin db now today req).2 = db) ∧
    ((verify_otp_and_checkin db now today req).2.otps.map
        (fun o => o.retryCount) = db.otps.map (fun o => o.retryCount)) ∧
    (∀ op : Op, op.isSendOtp = false →
      ((applyOp op db).otps.map (fun o => o.retryCount)).take
          db.otps.length = db.otps.map (fun o => o.retryCount)) := by
  refine ⟨?_, ?_, fun op hop => applyOp_retryCounts op db hop⟩
  · intro h1
    rw [verify_checkin_invalid db now today req h1]
    exact ⟨rfl, rfl⟩
  · cases h1 : otpFindValid db req.phoneNumber req.otpCode now with
    | none => rw [verify_checkin_invalid db now today req h1]
    | some o =>
      rcases Nat.lt_or_ge o.retryCount o.maxAttempts with h2 | h2
      · cases h3 : o.patientId.bind
            (fun pid => db.patients.find? (fun q => q.patientId == pid)) with
        | none => rw [verify_checkin_noPatient db now today req o h1 h2 h3]
        | some p =>
          cases h4 : db.visits.find? (openVisitPred p.patientId today) with
          | some ev =>
            rw [verify_checkin_existingVisit db now today req o p ev h1 h2 h3 h4]
            show (db.otps.map _).map _ = _
            rw [List.map_map]
            refine List.map_congr_left (fun r _ => ?_)
            simp only [Function.comp_apply]
            split <;> rfl
          | none =>
            rw [verify_checkin_newVisit db now today req o p h1 h2 h3 h4]
            show (db.otps.map _).map _ = _
            rw [List.map_map]
            refine List.map_congr_left (fun r _ => ?_)
            simp only [Function.comp_apply]
            split <;> rfl
      · rw [verify_checkin_exhausted db now today req o h1 h2]
        show (db.otps.map _).map _ = _
        rw [List.map_map]
        refine List.map_congr_left (fun r _ => ?_)
        simp only [Function.comp_apply]
        split <;> rfl

/-- Witness for C10: a verify call with a non-matching code on the empty
store fails and changes nothing, and a QR check-in (an operation other than
issue/resend) preserves the retry counter of the existing record of
`dbSpent`. -/
theorem C10_witness :
    (verify_otp_and_checkin emptyDB 0 0 reqBad).1.success = false ∧
    (verify_otp_and_checkin emptyDB 0 0 reqBad).2 = emptyDB ∧
    ((applyOp (Op.qrOp 0 0 reqQRp1) dbSpent).otps.map
        (fun o => o.retryCount)).take dbSpent.otps.length =
      dbSpent.otps.map (fun o => o.retryCount) := by
  have h := C10_verify_frame emptyDB 0 0 reqBad
  have h1 := h.1 rfl
  exact ⟨h1.1, h1.2,
    (C10_verify_frame dbSpent 0 0 reqBad).2.2 (Op.qrOp 0 0 reqQRp1) rfl⟩
